import Mathlib

/-!
Shallow embedding of the traffic-api-mvp multi-source traffic pipeline.

The embedding follows the JavaScript sources: the provider adapters
(`tiiAdapter.js`, `webtrisAdapter.js`, `googleMapsAdapter.js`), the fallback
orchestrator and response summary (`server.js`), the LLM segment-extraction
fallback (`extractSegment.js`, axios variant) and the M1 junction report
builder (`m1-junction-monitor.js`).  Network calls and the ambient clock are
modelled as explicit parameters (oracles); module-level caches become explicit
state that is threaded through the fetch functions; JS numbers are modelled as
`ℚ` (or `ℕ`/`ℤ` where the source only ever handles integers), and fields that
can be `undefined` become `Option` types.  Instrumentation that the theorems
need (network-call counters, the list of origin/destination pairs sent to the
commercial adapter) is returned alongside the results; it does not influence
any computed value.
-/

namespace TrafficApi

/-! ### JavaScript-semantics helpers -/

/-- JS truthiness of an optional string (`undefined` and `""` are falsy). -/
def truthyStr : Option String → Bool
  | some s => s != ""
  | none => false

/-- JS truthiness of an optional number (`undefined` and `0` are falsy). -/
def truthyQ : Option ℚ → Bool
  | some v => v != 0
  | none => false

/-- JS `a || b` where `a` is an optional number and `b` a number. -/
def jsOrQ (a : Option ℚ) (b : ℚ) : ℚ :=
  match a with
  | some v => if v = 0 then b else v
  | none => b

/-- JS `a || b` where `a` is an optional natural number and `b` a natural. -/
def jsOrNat (a : Option ℕ) (b : ℕ) : ℕ :=
  match a with
  | some v => if v = 0 then b else v
  | none => b

/-- JS `a || b` where `a` is an optional string and `b` a string. -/
def jsOrStr (a : Option String) (b : String) : String :=
  match a with
  | some s => if s = "" then b else s
  | none => b

/-- JS `a || b` where both sides stay optional (`x.f || y.g` stored as-is). -/
def jsOrOptStr (a b : Option String) : Option String :=
  if truthyStr a then a else b

/-- JS `a || b` for optional numbers where both sides stay optional. -/
def jsOrOptQ (a b : Option ℚ) : Option ℚ :=
  if truthyQ a then a else b

/-- JS `Math.round` (round half towards positive infinity). -/
def jsRound (x : ℚ) : ℤ := ⌊x + 1/2⌋

/-- JS `Math.round(x * 10) / 10` — round to one decimal place. -/
def round1 (x : ℚ) : ℚ := (jsRound (x * 10) : ℚ) / 10

/-- JS `Math.round(x * 100) / 100` — round to two decimal places. -/
def round2 (x : ℚ) : ℚ := (jsRound (x * 100) : ℚ) / 100

/-- JS `Math.round(n / 60)` for a non-negative integer number of seconds. -/
def roundDiv60 (n : ℕ) : ℕ := (n + 30) / 60

/-- `needle` occurs as a contiguous run inside `hay`. -/
def listInfix (needle : List Char) : List Char → Bool
  | [] => needle.isEmpty
  | c :: tail => needle.isPrefixOf (c :: tail) || listInfix needle tail

/-- JS `s.toUpperCase()` (ASCII), in a kernel-computable character-list form. -/
def strUpper (s : String) : String := String.mk (s.data.map Char.toUpper)

/-- JS `s.toLowerCase()` (ASCII), in a kernel-computable character-list form. -/
def strLower (s : String) : String := String.mk (s.data.map Char.toLower)

/-- JS `s.trim()`, in a kernel-computable character-list form. -/
def strTrim (s : String) : String :=
  String.mk (((s.data.dropWhile Char.isWhitespace).reverse.dropWhile
    Char.isWhitespace).reverse)

/-- JS `hay.includes(needle)`. -/
def includesStr (hay needle : String) : Bool := listInfix needle.data hay.data

/-- Case-insensitive substring test: JS `/lit/i.test(s)` for a literal `lit`. -/
def containsCI (hay needle : String) : Bool := includesStr (strLower hay) (strLower needle)

/-- A JS regex word character (`\w`, for `\b` boundaries). -/
def isWordChar (c : Char) : Bool := c.isAlphanum || c == '_'

/-! ### Road-pattern predicates (regex tests from the adapters) -/

/-- `/^(M|N|A)[0-9]+/i.test(road)` — the prefix test used for local streets. -/
def matchesMNAnum (road : String) : Bool :=
  match road.data with
  | c :: d :: _ =>
      (c.toLower == 'm' || c.toLower == 'n' || c.toLower == 'a') && d.isDigit
  | _ => false

/-- `/^X\d+$/i.test(road)` for a letter `X`: the letter then one or more digits. -/
def anchoredLetterNum (letter : Char) (road : String) : Bool :=
  match road.data with
  | c :: rest => c.toLower == letter && !rest.isEmpty && rest.all (·.isDigit)
  | [] => false

/-- `/^X\d+[A-Z]?$/i.test(road)`: letter, digits, then an optional letter. -/
def anchoredLetterNumOptLetter (letter : Char) (road : String) : Bool :=
  match road.data with
  | c :: rest =>
      c.toLower == letter &&
        ((!rest.isEmpty && rest.all (·.isDigit)) ||
          (match rest.reverse with
           | last :: body => last.isAlpha && !body.isEmpty && body.all (·.isDigit)
           | [] => false))
  | [] => false

/-- `isIrishRoad` from `tiiAdapter.js`: Irish designation prefixes or towns. -/
def isIrishRoad (road : String) : Bool :=
  anchoredLetterNum 'm' road || anchoredLetterNum 'n' road ||
  anchoredLetterNum 'r' road || anchoredLetterNum 'l' road ||
  containsCI road "Dublin" || containsCI road "Cork" || containsCI road "Galway" ||
  containsCI road "Limerick" || containsCI road "Waterford" ||
  containsCI road "Drogheda" || containsCI road "Swords" || containsCI road "Dundalk"

/-- The motorway numbers that `webtrisAdapter.js` treats as likely Irish. -/
def likelyIrishMNumbers : List String :=
  ["1", "2", "3", "4", "5", "6", "7", "8", "9", "11", "17", "18", "20", "50",
   "54", "55", "56", "57", "61", "62", "63", "64", "65", "66", "67", "68", "69",
   "70", "71", "72", "73", "74", "75", "76", "77", "78", "79", "80", "81", "82",
   "83", "84", "85", "86", "87", "88", "89"]

/-- `/^M(1|2|…|89)$/i.test(road)` from `webtrisAdapter.js`. -/
def isLikelyIrish (road : String) : Bool :=
  match road.data with
  | c :: rest => c.toLower == 'm' && likelyIrishMNumbers.contains (String.mk rest)
  | [] => false

/-- `isUKRoad` from `webtrisAdapter.js`. -/
def isUKRoad (road : String) : Bool :=
  (anchoredLetterNumOptLetter 'm' road || anchoredLetterNumOptLetter 'a' road ||
   anchoredLetterNum 'b' road ||
   containsCI road "Motorway" || containsCI road "Milton Keynes" ||
   containsCI road "Birmingham" || containsCI road "Manchester" ||
   containsCI road "London" || containsCI road "Leeds" ||
   containsCI road "Glasgow" || containsCI road "Edinburgh") &&
  !isLikelyIrish road

/-- The countries not covered by the free adapters (`googleMapsAdapter.js`). -/
def nonCoveredCountries : List String :=
  ["US", "FR", "DE", "ES", "IT", "NL", "BE", "AT", "CH", "PT"]

/-- `isGoogleMapsPreferred` from `googleMapsAdapter.js`: the prefer-commercial
heuristic (local street with a town, non-covered country, or a street-word in
the road name). -/
def isGoogleMapsPreferred (road : String) (town : Option String) (country : String) : Bool :=
  (truthyStr town && !matchesMNAnum road) ||
  (country != "" && nonCoveredCountries.contains (strUpper country)) ||
  (containsCI road "street" || containsCI road "road" || containsCI road "avenue" ||
   containsCI road "lane" || containsCI road "drive" || containsCI road "way" ||
   containsCI road "boulevard")

/-! ### TTL cache model

Each adapter owns a module-level `Map` keyed by a namespaced string, entries
`{ data, timestamp }`; validity is `Date.now() - timestamp < CACHE_TTL_MS`.
The map becomes an association list and `Date.now()` an explicit `now`
parameter. -/

def CACHE_TTL_MS : ℕ := 5 * 60 * 1000

structure CacheEntry (α : Type) where
  data : List α
  timestamp : ℕ
deriving DecidableEq

def Cache (α : Type) : Type := List (String × CacheEntry α)

def cacheGet {α : Type} (c : Cache α) (k : String) : Option (CacheEntry α) :=
  (c.find? (fun p => p.1 == k)).map (·.2)

def cacheSet {α : Type} (c : Cache α) (k : String) (e : CacheEntry α) : Cache α :=
  (k, e) :: c.filter (fun p => p.1 != k)

/-- `isCacheValid` shared by all three adapters (note: with a `ℕ` clock,
`now - timestamp` truncates at zero exactly as the JS negative difference
also compares below the TTL). -/
def isCacheValid {α : Type} (now : ℕ) : Option (CacheEntry α) → Bool
  | some item => now - item.timestamp < CACHE_TTL_MS
  | none => false

/-- Result shape shared by every adapter fetch: `{ data, error?, fromCache? }`
(the `timestamp` the source also attaches is not modelled: no claim reads it). -/
structure FetchOutcome (α : Type) where
  data : List α := []
  error : Option String := none
  fromCache : Option Bool := none
deriving DecidableEq

/-- An adapter fetch step: its visible result, the cache after the call, and
the number of network (axios) calls it issued — instrumentation for the cache
claims, not a value the source computes. -/
structure FetchStep (α : Type) where
  result : FetchOutcome α
  cache : Cache α
  networkCalls : ℕ

/-! ### TII adapter (`tiiAdapter.js`) -/

structure TIISituationRecord where
  roadName : Option String := none
  directionBound : Option String := none
  travelTime : Option ℕ := none
  freeFlowTravelTime : Option ℕ := none
  lat : Option ℚ := none
  lon : Option ℚ := none
  startLocation : Option String := none
  endLocation : Option String := none
deriving DecidableEq

structure TIIHeader where
  id : Option String := none
deriving DecidableEq

structure TIISituation where
  header : Option TIIHeader := none
  situationRecord : List TIISituationRecord := []
deriving DecidableEq

/-- A raw element of the DATEX II feed.  The source reads both
`record.situation.…` (in `normalizeTIIRecord`) and `record.situationRecord`
(in the road filter of `fetchTIITraffic`), so both shapes are present. -/
structure TIIRaw where
  situation : Option TIISituation := none
  situationRecord : List TIISituationRecord := []
  road : Option String := none
  lat : Option ℚ := none
  lon : Option ℚ := none
  publicationTime : Option String := none
  id : Option String := none
deriving DecidableEq

/-- A normalized TII record (`location` sub-object flattened into
`locLat`/`locLon`/`locFrom`/`locTo`). -/
structure TIIRecord where
  source : String
  road : String
  direction : String
  travelTimeMinutes : ℕ
  freeFlowTimeMinutes : ℕ
  delayMinutes : ℕ
  congestionLevel : String
  locLat : Option ℚ
  locLon : Option ℚ
  locFrom : Option String
  locTo : Option String
  timestamp : String
  rawId : Option String
deriving DecidableEq

/-- `road.replace(/^R/i, '')` — strip one leading `R`/`r`. -/
def stripLeadingR (road : String) : String :=
  match road.data with
  | c :: rest => if c == 'R' || c == 'r' then String.mk rest else road
  | [] => road

/-- `normalizeTIIRecord` from `tiiAdapter.js`.  `nowIso` models
`new Date().toISOString()`. -/
def normalizeTIIRecord (nowIso : String) (record : TIIRaw) : TIIRecord :=
  let situation := record.situation.getD {}
  let header := situation.header.getD {}
  let situationRecord := situation.situationRecord.head?.getD {}
  let road := jsOrStr situationRecord.roadName (jsOrStr record.road "Unknown")
  let direction := jsOrStr situationRecord.directionBound "Unknown"
  let travelTime := situationRecord.travelTime.getD 0
  let freeFlowTime := jsOrNat situationRecord.freeFlowTravelTime travelTime
  let delay := travelTime - freeFlowTime
  let congestionLevel :=
    if delay > 10 then "heavy"
    else if delay > 5 then "moderate"
    else if delay > 2 then "light"
    else "none"
  { source := "TII-Ireland"
    road := stripLeadingR road
    direction := direction
    travelTimeMinutes := roundDiv60 travelTime
    freeFlowTimeMinutes := roundDiv60 freeFlowTime
    delayMinutes := roundDiv60 delay
    congestionLevel := congestionLevel
    locLat := jsOrOptQ record.lat situationRecord.lat
    locLon := jsOrOptQ record.lon situationRecord.lon
    locFrom := situationRecord.startLocation
    locTo := situationRecord.endLocation
    timestamp := jsOrStr record.publicationTime nowIso
    rawId := jsOrOptStr header.id record.id }

/-- Outcome of the single axios GET that `fetchTIITraffic` issues. -/
inductive TIINet where
  | ok (situations : List TIIRaw)
  | err (msg : String)

def getCacheKeyTII (road : String) : String := "tii:" ++ strUpper road

/-- The road filter inside `fetchTIITraffic`. -/
def tiiFilterRoad (road : String) (situations : List TIIRaw) : List TIIRaw :=
  if road != "" then
    situations.filter (fun s =>
      let rec0 := s.situationRecord.head?.getD {}
      let roadName := strUpper (jsOrStr rec0.roadName "")
      includesStr roadName (strUpper road))
  else situations

/-- The cache-miss path of `fetchTIITraffic` (the `try`/`catch` body). -/
def fetchTIIFresh (net : TIINet) (now : ℕ) (nowIso : String)
    (cache : Cache TIIRecord) (road : String) : FetchStep TIIRecord :=
  match net with
  | .err msg => ⟨{ data := [], error := some msg }, cache, 1⟩
  | .ok situations =>
      let filteredData := tiiFilterRoad road situations
      let normalizedData := filteredData.map (normalizeTIIRecord nowIso)
      ⟨{ data := normalizedData, fromCache := some false },
        cacheSet cache (getCacheKeyTII road) ⟨normalizedData, now⟩, 1⟩

/-- `fetchTIITraffic` from `tiiAdapter.js`, with the network outcome, clock
and cache made explicit. -/
def fetchTIITraffic (net : TIINet) (now : ℕ) (nowIso : String)
    (cache : Cache TIIRecord) (road : String) : FetchStep TIIRecord :=
  match cacheGet cache (getCacheKeyTII road) with
  | some item =>
      if isCacheValid now (some item) then
        ⟨{ data := item.data, fromCache := some true }, cache, 0⟩
      else fetchTIIFresh net now nowIso cache road
  | none => fetchTIIFresh net now nowIso cache road

/-! ### WebTRIS adapter (`webtrisAdapter.js`) -/

structure WSite where
  id : Option String := none
  name : Option String := none
  direction : Option String := none
  typicalSpeed : Option ℚ := none
  length : Option ℚ := none
  latitude : Option ℚ := none
  longitude : Option ℚ := none
  area : Option String := none
  description : Option String := none
deriving DecidableEq

structure WReport where
  siteId : Option String := none
  speed : Option ℚ := none
  averageSpeed : Option ℚ := none
  vehicleFlow : Option ℚ := none
  volume : Option ℚ := none
  timestamp : Option String := none
deriving DecidableEq

/-- A normalized WebTRIS record (`location` sub-object flattened). -/
structure WebTRISRecord where
  source : String
  siteId : Option String
  road : String
  direction : String
  locLat : Option ℚ
  locLon : Option ℚ
  locArea : Option String
  locDescription : Option String
  vehicleFlow : ℚ
  averageSpeed : ℤ
  congestionLevel : String
  travelTimeMinutes : ℚ
  freeFlowTimeMinutes : ℚ
  delayMinutes : ℚ
  timestamp : String
deriving DecidableEq

/-- `road.replace(/^M/i, 'M')` — normalize the case of one leading `M`. -/
def normalizeLeadingM (road : String) : String :=
  match road.data with
  | c :: rest => if c == 'M' || c == 'm' then String.mk ('M' :: rest) else road
  | [] => road

/-- `normalizeWebTRISRecord` from `webtrisAdapter.js`. -/
def normalizeWebTRISRecord (nowIso : String) (site : WSite) (report : WReport) :
    WebTRISRecord :=
  let road := jsOrStr site.name "Unknown"
  let direction := jsOrStr site.direction "Unknown"
  let speed := jsOrQ report.speed (jsOrQ report.averageSpeed 0)
  let flow := jsOrQ report.vehicleFlow (jsOrQ report.volume 0)
  let typicalSpeed := jsOrQ site.typicalSpeed 70
  let speedRatio := speed / typicalSpeed
  let congestionLevel :=
    if speedRatio < 3/10 ∨ speed < 20 then "heavy"
    else if speedRatio < 6/10 ∨ speed < 40 then "moderate"
    else if speedRatio < 8/10 ∨ speed < 55 then "light"
    else "none"
  let distanceKm := jsOrQ site.length 1
  let travelTimeMinutes := if speed > 0 then distanceKm / speed * 60 else 0
  let freeFlowTimeMinutes := distanceKm / typicalSpeed * 60
  let delayMinutes := max 0 (travelTimeMinutes - freeFlowTimeMinutes)
  { source := "WebTRIS-UK"
    siteId := site.id
    road := normalizeLeadingM road
    direction := direction
    locLat := site.latitude
    locLon := site.longitude
    locArea := site.area
    locDescription := site.description
    vehicleFlow := flow
    averageSpeed := jsRound speed
    congestionLevel := congestionLevel
    travelTimeMinutes := round1 travelTimeMinutes
    freeFlowTimeMinutes := round1 freeFlowTimeMinutes
    delayMinutes := round1 delayMinutes
    timestamp := jsOrStr report.timestamp nowIso }

/-- Outcome of one of the two axios GETs WebTRIS issues (sites, then reports). -/
inductive SubFetch (β : Type) where
  | ok (items : List β)
  | err (msg : String)

/-- The network world a WebTRIS fetch runs against. -/
structure WebTRISNet where
  sites : SubFetch WSite
  reports : SubFetch WReport

def getCacheKeyWebTRIS (road : String) : String := "webtris:" ++ strUpper road

/-- `fetchSites`: returns `[]` on any error (the error is only logged).  The
second component counts the axios call. -/
def fetchSites (net : WebTRISNet) : List WSite × ℕ :=
  match net.sites with
  | .ok sites => (sites, 1)
  | .err _ => ([], 1)

/-- `fetchReports`: no call when `siteIds` is empty; `[]` on any error. -/
def fetchReports (net : WebTRISNet) (siteIds : List (Option String)) :
    List WReport × ℕ :=
  if siteIds.isEmpty then ([], 0)
  else
    match net.reports with
    | .ok reports => (reports, 1)
    | .err _ => ([], 1)

/-- The cache-miss path of `fetchWebTRISTraffic` (its `try` body; nothing in
the modelled body can throw, so the `catch` branch of the source is
unreachable here — failures inside `fetchSites`/`fetchReports` have already
been swallowed). -/
def fetchWebTRISFresh (net : WebTRISNet) (now : ℕ) (nowIso : String)
    (cache : Cache WebTRISRecord) (road : String) : FetchStep WebTRISRecord :=
  let (sites, c1) := fetchSites net
  if sites.isEmpty then
    ⟨{ data := [] }, cache, c1⟩
  else
    let siteIds := sites.map (·.id)
    let (reports, c2) := fetchReports net siteIds
    let data := sites.map (fun site =>
      let report := (reports.find? (fun r => r.siteId == site.id)).getD {}
      normalizeWebTRISRecord nowIso site report)
    ⟨{ data := data, fromCache := some false },
      cacheSet cache (getCacheKeyWebTRIS road) ⟨data, now⟩, c1 + c2⟩

/-- `fetchWebTRISTraffic` from `webtrisAdapter.js`. -/
def fetchWebTRISTraffic (net : WebTRISNet) (now : ℕ) (nowIso : String)
    (cache : Cache WebTRISRecord) (road : String) : FetchStep WebTRISRecord :=
  match cacheGet cache (getCacheKeyWebTRIS road) with
  | some item =>
      if isCacheValid now (some item) then
        ⟨{ data := item.data, fromCache := some true }, cache, 0⟩
      else fetchWebTRISFresh net now nowIso cache road
  | none => fetchWebTRISFresh net now nowIso cache road

/-! ### Google Maps adapter (`googleMapsAdapter.js`) -/

/-- `calculateCongestion(durationInTraffic, duration)` — both in seconds. -/
def calculateCongestion (durationInTraffic duration : ℚ) : String :=
  if duration = 0 then "unknown"
  else
    let ratio := durationInTraffic / duration
    let delayMinutes := (durationInTraffic - duration) / 60
    if delayMinutes > 15 ∨ ratio > 2 then "heavy"
    else if delayMinutes > 5 ∨ ratio > 3/2 then "moderate"
    else if delayMinutes > 2 ∨ ratio > 6/5 then "light"
    else "none"

structure GLatLng where
  lat : Option ℚ := none
  lng : Option ℚ := none
deriving DecidableEq

/-- A Directions-API route leg.  `distanceValue` models `leg.distance?.value`
(and similarly the two durations); `steps` keeps each step's
`html_instructions || ''` string, the only part of a step the source reads. -/
structure GLeg where
  distanceValue : Option ℚ := none
  durationValue : Option ℚ := none
  durationInTrafficValue : Option ℚ := none
  startLocation : Option GLatLng := none
  endLocation : Option GLatLng := none
  startAddress : Option String := none
  endAddress : Option String := none
  steps : List String := []
deriving DecidableEq

structure GRoute where
  legs : List GLeg := []
  summary : Option String := none
  warnings : List String := []
deriving DecidableEq

/-- Consume the (lowercase) keyword `kw` case-insensitively; return the rest. -/
def matchKwCI : List Char → List Char → Option (List Char)
  | [], s => some s
  | _ :: _, [] => none
  | k :: ks, c :: cs => if c.toLower == k then matchKwCI ks cs else none

/-- After a matched keyword: `\s+([^<]+)` with the regex backtracking that
lets `[^<]+` take the last whitespace character when nothing else follows. -/
def wsCapture (rest : List Char) : Option (List Char) :=
  let wsRun := rest.takeWhile (·.isWhitespace)
  if wsRun.isEmpty then none
  else
    let afterWs := rest.drop wsRun.length
    let cap := afterWs.takeWhile (· != '<')
    if !cap.isEmpty then some cap
    else
      match wsRun.reverse with
      | c :: _ :: _ => some [c]
      | _ => none

/-- Leftmost match of `/(?:onto|on)\s+([^<]+)/i`, returning the capture. -/
def onOntoScan : List Char → Option String
  | [] => none
  | c :: rest =>
      match (matchKwCI "onto".data (c :: rest)).bind wsCapture with
      | some cap => some (String.mk cap)
      | none =>
          match (matchKwCI "on".data (c :: rest)).bind wsCapture with
          | some cap => some (String.mk cap)
          | none => onOntoScan rest

/-- The `mainRoads` accumulation loop of `normalizeGoogleMapsData`. -/
def mainRoadsOf (steps : List String) : List String :=
  steps.foldl (fun mainRoads instruction =>
    match onOntoScan instruction.data with
    | some m =>
        let t := strTrim m
        if mainRoads.contains t then mainRoads else mainRoads ++ [t]
    | none => mainRoads) []

/-- A normalized Google Maps record (`location` sub-object flattened into
`locStartLat`/`locStartLon`/`locEndLat`/`locEndLon`/`via`). -/
structure GoogleRecord where
  source : String
  road : String
  origin : String
  destination : String
  locStartLat : Option ℚ
  locStartLon : Option ℚ
  locEndLat : Option ℚ
  locEndLon : Option ℚ
  via : List String
  distanceKm : ℚ
  durationMinutes : ℤ
  durationInTrafficMinutes : ℤ
  delayMinutes : ℤ
  congestionLevel : String
  routeSummary : String
  warnings : List String
  timestamp : String
deriving DecidableEq

/-- `normalizeGoogleMapsData` from `googleMapsAdapter.js`.  The source reads
`route.legs[0]` unconditionally; an empty `legs` array would make it throw
(caught by the adapter's `try`), so the model substitutes an all-default leg —
no claim exercises that case. -/
def normalizeGoogleMapsData (nowIso : String) (route : GRoute)
    (origin destination : String) (road : Option String) : GoogleRecord :=
  let leg := route.legs.head?.getD {}
  let distanceMeters := jsOrQ leg.distanceValue 0
  let distanceKm := distanceMeters / 1000
  let durationSeconds := jsOrQ leg.durationValue 0
  let durationInTrafficSeconds := jsOrQ leg.durationInTrafficValue durationSeconds
  let durationMinutes := jsRound (durationSeconds / 60)
  let durationInTrafficMinutes := jsRound (durationInTrafficSeconds / 60)
  let delayMinutes := max 0 (durationInTrafficMinutes - durationMinutes)
  let congestionLevel := calculateCongestion durationInTrafficSeconds durationSeconds
  let startLocation := leg.startLocation.getD {}
  let endLocation := leg.endLocation.getD {}
  let mainRoads := mainRoadsOf leg.steps
  { source := "GoogleMaps"
    road := jsOrStr road (jsOrStr mainRoads.head? "Unknown")
    origin := jsOrStr leg.startAddress origin
    destination := jsOrStr leg.endAddress destination
    locStartLat := startLocation.lat
    locStartLon := startLocation.lng
    locEndLat := endLocation.lat
    locEndLon := endLocation.lng
    via := mainRoads.take 3
    distanceKm := round2 distanceKm
    durationMinutes := durationMinutes
    durationInTrafficMinutes := durationInTrafficMinutes
    delayMinutes := delayMinutes
    congestionLevel := congestionLevel
    routeSummary := jsOrStr route.summary ""
    warnings := route.warnings
    timestamp := nowIso }

/-- Outcome of the single Directions-API axios GET. -/
inductive GNet where
  | transportErr (msg : String)
  | badStatus (status : String)
  | okRoutes (routes : List GRoute)

def getCacheKeyGoogle (origin destination : String) : String :=
  "googlemaps:" ++ strLower origin ++ ":" ++ strLower destination

/-- The network path of `fetchGoogleMapsTraffic` (cache already missed,
API key present).  `trackAPICall` only feeds the stats endpoint and is not
modelled beyond the network-call count. -/
def fetchGoogleFresh (net : GNet) (now : ℕ) (nowIso : String)
    (cache : Cache GoogleRecord) (origin destination : String)
    (road : Option String) : FetchStep GoogleRecord :=
  match net with
  | .transportErr msg => ⟨{ data := [], error := some msg }, cache, 1⟩
  | .badStatus status =>
      ⟨{ data := [], error := some ("Google Maps API Error: " ++ status) }, cache, 1⟩
  | .okRoutes [] => ⟨{ data := [] }, cache, 1⟩
  | .okRoutes (route :: _) =>
      let normalizedData := normalizeGoogleMapsData nowIso route origin destination road
      ⟨{ data := [normalizedData], fromCache := some false },
        cacheSet cache (getCacheKeyGoogle origin destination) ⟨[normalizedData], now⟩, 1⟩

/-- `fetchGoogleMapsTraffic` from `googleMapsAdapter.js`; `apiKey` models
`process.env.GOOGLE_MAPS_API_KEY`. -/
def fetchGoogleMapsTraffic (apiKey : Option String) (net : GNet) (now : ℕ)
    (nowIso : String) (cache : Cache GoogleRecord) (origin destination : String)
    (road : Option String) : FetchStep GoogleRecord :=
  if !truthyStr apiKey then
    ⟨{ data := [], error := some "Google Maps API Key not configured" }, cache, 0⟩
  else
    match cacheGet cache (getCacheKeyGoogle origin destination) with
    | some item =>
        if isCacheValid now (some item) then
          ⟨{ data := item.data, fromCache := some true }, cache, 0⟩
        else fetchGoogleFresh net now nowIso cache origin destination road
    | none => fetchGoogleFresh net now nowIso cache origin destination road

/-- `buildLocationQuery(road, town, country)`. -/
def buildLocationQuery (road : String) (town : Option String) (country : String) :
    String :=
  String.intercalate ", "
    ([road] ++ (if truthyStr town then [town.getD ""] else []) ++
      (if country != "" then [country] else []))

/-- The `origin` built by `fetchRoadTraffic` (template
`` `${town} ${country || ''}` `` when a town is given). -/
def googleOrigin (road : String) (town : Option String) (country : String) : String :=
  if truthyStr town then (town.getD "") ++ " " ++ country
  else buildLocationQuery road town country

/-- The `destination` built by `fetchRoadTraffic`. -/
def googleDestination (road : String) (town : Option String) (country : String) :
    String :=
  buildLocationQuery road town country

/-- `fetchRoadTraffic` from `googleMapsAdapter.js`, over an oracle `gm` for
`fetchGoogleMapsTraffic origin destination`.  The second component is the
ordered list of origin/destination pairs actually sent to the commercial
adapter (instrumentation for the fallback claims). -/
def fetchRoadTraffic {α : Type} (gm : String → String → FetchOutcome α)
    (road : String) (town : Option String) (country : String) :
    FetchOutcome α × List (String × String) :=
  let origin := googleOrigin road town country
  let destination := googleDestination road town country
  let result := gm origin destination
  if (result.data.length == 0) && truthyStr town then
    let altOrigin := "Near " ++ road ++ ", " ++ town.getD ""
    let altDest := "End of " ++ road ++ ", " ++ town.getD ""
    (gm altOrigin altDest, [(origin, destination), (altOrigin, altDest)])
  else (result, [(origin, destination)])

/-! ### Fallback orchestrator (`fetchTrafficWithFallback` in `server.js`)

The three adapters appear as oracles: `tii` and `web` give the settled result
of `fetchTIITraffic road` / `fetchWebTRISTraffic road`, and `gm` the settled
result of `fetchGoogleMapsTraffic origin destination` (their internals are
modelled separately above).  `googleCalls` records the origin/destination
pairs sent to the commercial adapter — instrumentation only. -/

/-- One entry of the orchestrator's `details` trace. -/
structure Detail where
  step : String
  error : Option String := none
  fromCache : Option Bool := none
deriving DecidableEq

/-- Accumulated state after the free-source phase. -/
structure Phase (α : Type) where
  data : List α := []
  sources : List String := []
  details : List Detail := []

def normalizedCountryOf (country : String) : String :=
  if country = "" then "ALL" else strUpper country

/-- `country === 'ALL'|'IE'` gate and Irish-road test guarding the TII call. -/
def tiiGuard (road country : String) : Bool :=
  let nc := normalizedCountryOf country
  (nc == "ALL" || nc == "IE") && (isIrishRoad road || strUpper road == "M1")

/-- `country === 'ALL'|'UK'` gate and UK-road test guarding the WebTRIS call. -/
def webGuard (road country : String) : Bool :=
  let nc := normalizedCountryOf country
  (nc == "ALL" || nc == "UK") && (isUKRoad road || strUpper road == "M1")

/-- The TII step of the orchestrator.  The source pushes the source name
before inspecting the data, so `sources` does not depend on the data check;
pushing an empty `data` array is the identity, so `data` is taken from the
result directly. -/
def tiiPhase {α : Type} (tii : String → FetchOutcome α) (road country : String) :
    Phase α :=
  if tiiGuard road country then
    let tiiResult := tii road
    let tryDetail : Detail := { step := "Trying TII (Ireland) for " ++ road }
    let resultDetail : Detail :=
      if tiiResult.data.length > 0 then
        { step := "TII returned " ++ toString tiiResult.data.length ++ " records"
          fromCache := tiiResult.fromCache }
      else { step := "TII returned no data", error := tiiResult.error }
    { data := tiiResult.data
      sources := ["TII-Ireland"]
      details := [tryDetail, resultDetail] }
  else {}

/-- The WebTRIS step of the orchestrator (same shape as the TII step). -/
def webPhase {α : Type} (web : String → FetchOutcome α) (road country : String) :
    Phase α :=
  if webGuard road country then
    let webtrisResult := web road
    let tryDetail : Detail := { step := "Trying WebTRIS (UK) for " ++ road }
    let resultDetail : Detail :=
      if webtrisResult.data.length > 0 then
        { step := "WebTRIS returned " ++ toString webtrisResult.data.length ++ " records"
          fromCache := webtrisResult.fromCache }
      else { step := "WebTRIS returned no data", error := webtrisResult.error }
    { data := webtrisResult.data
      sources := ["WebTRIS-UK"]
      details := [tryDetail, resultDetail] }
  else {}

/-- Everything the orchestrator accumulates before the fallback decision. -/
def freePhase {α : Type} (tii web : String → FetchOutcome α) (road country : String) :
    Phase α :=
  let p1 := tiiPhase tii road country
  let p2 := webPhase web road country
  { data := p1.data ++ p2.data
    sources := p1.sources ++ p2.sources
    details := p1.details ++ p2.details }

/-- `isLocalStreet = town && !road.match(/^(M|N|A)[0-9]+/i)`. -/
def isLocalStreet (road : String) (town : Option String) : Bool :=
  truthyStr town && !matchesMNAnum road

/-- `shouldTryGoogle = !hasFreeData || isLocalStreet || isGoogleMapsPreferred`. -/
def shouldTryGoogle {α : Type} (fp : Phase α) (road : String) (town : Option String)
    (country : String) : Bool :=
  fp.data.isEmpty || isLocalStreet road town || isGoogleMapsPreferred road town country

/-- The country-name mapping sent to `fetchRoadTraffic`. -/
def countryNameOf (country : String) : String :=
  let nc := normalizedCountryOf country
  if nc = "IE" then "Ireland"
  else if nc = "UK" then "United Kingdom"
  else if nc = "ALL" then "" else nc

/-- The orchestrator's result object (plus the `googleCalls` instrumentation). -/
structure OrchOut (α : Type) where
  data : List α
  sourcesUsed : List String
  fallbackUsed : Bool
  errors : List String
  details : List Detail
  googleCalls : List (String × String)

/-- `fetchTrafficWithFallback(road, country, town)` from `server.js`. -/
def fetchTrafficWithFallback {α : Type} (tii web : String → FetchOutcome α)
    (gm : String → String → FetchOutcome α) (road country : String)
    (town : Option String) : OrchOut α :=
  let fp := freePhase tii web road country
  if shouldTryGoogle fp road town country then
    let countryName := countryNameOf country
    let fallbackDetail : Detail := { step := "Falling back to Google Maps for " ++ road }
    let grc := fetchRoadTraffic gm road town countryName
    let googleResult := grc.1
    let calls := grc.2
    let resultDetail : Detail :=
      if googleResult.data.length > 0 then
        { step := "Google Maps returned " ++ toString googleResult.data.length ++ " records"
          fromCache := googleResult.fromCache }
      else { step := "Google Maps returned no data", error := googleResult.error }
    { data := if googleResult.data.length > 0 then fp.data ++ googleResult.data else fp.data
      sourcesUsed := fp.sources ++ ["GoogleMaps"]
      fallbackUsed := true
      errors :=
        if googleResult.data.length > 0 then []
        else match googleResult.error with | some e => [e] | none => []
      details := fp.details ++ [fallbackDetail, resultDetail]
      googleCalls := calls }
  else
    { data := fp.data
      sourcesUsed := fp.sources
      fallbackUsed := false
      errors := []
      details := fp.details
      googleCalls := [] }

/-! ### Response summary (`summary` object in the `/traffic` route) -/

/-- The projection of a merged record that the summary reads. -/
structure ApiRecordView where
  source : String
  congestionLevel : String
deriving DecidableEq

/-- `totalRecords` and the four `congestionBreakdown` buckets (fields renamed
with a `Count` suffix; the JSON keys are `heavy`/`moderate`/`light`/`none`). -/
structure SummaryCounts where
  totalRecords : ℕ
  heavyCount : ℕ
  moderateCount : ℕ
  lightCount : ℕ
  noneCount : ℕ
deriving DecidableEq

/-- The summary computation from the `/traffic` handler in `server.js`. -/
def summaryOf (data : List ApiRecordView) : SummaryCounts :=
  { totalRecords := data.length
    heavyCount := (data.filter (fun d => d.congestionLevel == "heavy")).length
    moderateCount := (data.filter (fun d => d.congestionLevel == "moderate")).length
    lightCount := (data.filter (fun d => d.congestionLevel == "light")).length
    noneCount := (data.filter (fun d => d.congestionLevel == "none")).length }

/-! ### Junction report builder (`m1-junction-monitor.js`) -/

/-- JS truthiness of an optional integer. -/
def truthyInt : Option ℤ → Bool
  | some v => v != 0
  | none => false

/-- JS `a || b` for an optional integer. -/
def jsOrInt (a : Option ℤ) (b : ℤ) : ℤ :=
  match a with
  | some v => if v = 0 then b else v
  | none => b

/-- A processed segment result as consumed by `generateReport` (times are
integer minutes, which is all the report scenarios use). -/
structure SegmentResult where
  name : String
  normalTime : ℤ
  currentTime : Option ℤ
  delayMinutes : ℤ
  emoji : String
deriving DecidableEq, Inhabited

def totalNormalTime (segmentResults : List SegmentResult) : ℤ :=
  segmentResults.foldl (fun sum s => sum + s.normalTime) 0

/-- `Σ (s.currentTime || s.normalTime)`. -/
def totalCurrentTime (segmentResults : List SegmentResult) : ℤ :=
  segmentResults.foldl (fun sum s => sum + jsOrInt s.currentTime s.normalTime) 0

def totalDelayOf (segmentResults : List SegmentResult) : ℤ :=
  totalCurrentTime segmentResults - totalNormalTime segmentResults

/-- `segmentResults.reduce((worst, current) => current.delayMinutes >
worst.delayMinutes ? current : worst)` — first occurrence wins ties.  A JS
`reduce` without seed throws on `[]`; the routes are fixed 8-segment lists, so
the model returns the `Inhabited` default there instead. -/
def worstSegmentOf : List SegmentResult → SegmentResult
  | [] => default
  | s :: rest =>
      rest.foldl (fun worst current =>
        if current.delayMinutes > worst.delayMinutes then current else worst) s

/-- One line of the report's segment breakdown. -/
def segmentLine (s : SegmentResult) : String :=
  let timeStr :=
    if truthyInt s.currentTime then toString (s.currentTime.getD 0) ++ " min"
    else "N/A"
  let delayStr :=
    if s.delayMinutes > 0 then " (+" ++ toString s.delayMinutes ++ ")" else ""
  s.emoji ++ " " ++ s.name ++ ": " ++ timeStr ++ delayStr

/-- `Math.ceil(totalDelay / 5) * 5` (exact on integers for every sign). -/
def ceilDiv5Times5 (totalDelay : ℤ) : ℤ := ((totalDelay + 4).ediv 5) * 5

/-- The recommendation ladder of `generateReport`. -/
def reportRecommendation (totalDelay : ℤ) (worstSegment : SegmentResult) : String :=
  if totalDelay ≥ 15 then
    "🔴 Major delays! Consider alternative route or delay departure by " ++
      toString (ceilDiv5Times5 totalDelay) ++ " mins."
  else if totalDelay ≥ 10 then
    "🟠 Significant delays at " ++ worstSegment.name ++ ". Allow extra " ++
      toString totalDelay ++ " minutes."
  else if totalDelay ≥ 5 then
    "🟡 Minor delays. Allow extra " ++ toString totalDelay ++ " minutes, mainly at " ++
      worstSegment.name ++ "."
  else "🟢 Route is clear. Normal travel time expected."

/-- `generateReport(direction, segmentResults)`; `dateStr` models the
`toLocaleString` timestamp line. -/
def generateReport (direction dateStr : String)
    (segmentResults : List SegmentResult) : String :=
  let isMorning := direction == "southbound"
  let routeName := if isMorning then "Drogheda → Swords" else "Swords → Drogheda"
  let emoji := if isMorning then "🌅" else "🌆"
  let tn := totalNormalTime segmentResults
  let tc := totalCurrentTime segmentResults
  let totalDelay := tc - tn
  let worstSegment := worstSegmentOf segmentResults
  let segmentLines := segmentResults.map segmentLine
  let recommendation := reportRecommendation totalDelay worstSegment
  let delayLine :=
    if totalDelay > 0 then "+" ++ toString totalDelay ++ " minutes" else "No delay"
  strTrim ("\n" ++ emoji ++ " **M1 Traffic Report - " ++ routeName ++ "**\n_" ++ dateStr ++
    "_\n\n**Segment Breakdown:**\n" ++ String.intercalate "\n" segmentLines ++
    "\n\n**Summary:**\n• Total time: " ++ toString tc ++ " minutes (normal: " ++
    toString tn ++ " min)\n• Delay: " ++ delayLine ++ "\n• Worst segment: " ++
    worstSegment.name ++ " (" ++ toString worstSegment.delayMinutes ++
    " min delay)\n\n**Recommendation:**\n" ++ recommendation ++ "\n  ")

/-! ### Segment enrichment (`extractSegment.js`, axios/LLM variant)

The LLM round trip (`buildPrompt` + `callLLM` + `parseLLMResponse`) is a
network interaction modelled as a single oracle outcome: either a parsed
structure or a failure message (covering "not configured", timeout, auth,
rate-limit and unparseable-response errors alike — all of them reach the same
`catch` in `extractSegment`).  The deterministic fallback extractor
`createFallbackResult` is embedded in full. -/

/-- First truthy of two optional strings, else `null`. -/
def jsOrNullStr (a b : Option String) : Option String :=
  if truthyStr a then a else if truthyStr b then b else none

/-- `x || null` for an optional string. -/
def truthyOrNone (a : Option String) : Option String :=
  if truthyStr a then a else none

/-- The structured extraction result: the seven fixed fields plus the
annotations the module adds (`humanReadable`, `cached`, `fallback`,
`extractionError`, `llmProvider`). -/
structure ExtractResult where
  road : Option String := none
  direction : Option String := none
  segment : Option String := none
  landmark : Option String := none
  congestion : Option String := none
  speed : Option String := none
  incidentType : Option String := none
  rawExtracted : Bool := false
  humanReadable : Option String := none
  cached : Bool := false
  fallback : Bool := false
  extractionError : Option String := none
  llmProvider : Option String := none
deriving DecidableEq

/-- `generateHumanReadable`: assemble the non-null fields in fixed order. -/
def generateHumanReadable (e : ExtractResult) : String :=
  let parts :=
    (if truthyStr e.road && truthyStr e.direction then
        [(e.road.getD "") ++ " " ++ (e.direction.getD "")]
      else if truthyStr e.road then [e.road.getD ""] else []) ++
    (if truthyStr e.segment then ["- " ++ e.segment.getD ""] else []) ++
    (if truthyStr e.landmark then ["(" ++ e.landmark.getD "" ++ ")"] else []) ++
    (if truthyStr e.congestion then ["[" ++ e.congestion.getD "" ++ " congestion]"] else []) ++
    (if truthyStr e.speed then ["at " ++ e.speed.getD ""] else []) ++
    (if truthyStr e.incidentType then ["- " ++ e.incidentType.getD ""] else [])
  let joined := String.intercalate " " parts
  if joined = "" then "Location information unavailable" else joined

/-- No word character before the scan position (regex `\b` on the left). -/
def boundaryBefore : Option Char → Bool
  | some p => !isWordChar p
  | none => true

/-- No word character at the start of `rest` (regex `\b` on the right). -/
def boundaryAfter : List Char → Bool
  | a :: _ => !isWordChar a
  | [] => true

/-- Consume the lowercase keyword `kw` case-insensitively, returning the
matched original-case characters and the rest. -/
def takeKwCI : List Char → List Char → Option (List Char × List Char)
  | [], rest => some ([], rest)
  | _ :: _, [] => none
  | k :: ks, c :: cs =>
      if c.toLower == k then (takeKwCI ks cs).map (fun p => (c :: p.1, p.2))
      else none

/-- `/\b(M\d+|N\d+|A\d+|E\d+|R\d+)\b/i` attempted at one position. -/
def roadCodeAt (prev : Option Char) (s : List Char) : Option (List Char) :=
  match s with
  | c :: rest =>
      if boundaryBefore prev &&
          (c.toLower == 'm' || c.toLower == 'n' || c.toLower == 'a' ||
            c.toLower == 'e' || c.toLower == 'r') then
        let digits := rest.takeWhile (·.isDigit)
        if !digits.isEmpty && boundaryAfter (rest.drop digits.length) then
          some (c :: digits)
        else none
      else none
  | [] => none

def scanRoadCodeAux : Option Char → List Char → Option (List Char)
  | _, [] => none
  | prev, c :: rest =>
      match roadCodeAt prev (c :: rest) with
      | some m => some m
      | none => scanRoadCodeAux (some c) rest

/-- Leftmost match of the road-code regex of `createFallbackResult`. -/
def scanRoadCode (s : String) : Option String :=
  (scanRoadCodeAux none s.data).map String.mk

/-- One keyword alternative with `\b` on both sides, at one position. -/
def kwAt (prev : Option Char) (kw : List Char) (s : List Char) : Option (List Char) :=
  if boundaryBefore prev then
    match takeKwCI kw s with
    | some (m, rest) => if boundaryAfter rest then some m else none
    | none => none
  else none

/-- The keyword alternatives tried in regex order at one position. -/
def kwListAt (prev : Option Char) (kws : List (List Char)) (s : List Char) :
    Option (List Char) :=
  match kws with
  | [] => none
  | kw :: ks =>
      match kwAt prev kw s with
      | some m => some m
      | none => kwListAt prev ks s

def scanKwListAux (kws : List (List Char)) : Option Char → List Char → Option (List Char)
  | _, [] => none
  | prev, c :: rest =>
      match kwListAt prev kws (c :: rest) with
      | some m => some m
      | none => scanKwListAux kws (some c) rest

/-- Leftmost match of `/\b(w1|w2|…)\b/i` returning the original-case text. -/
def scanKwList (kws : List String) (s : String) : Option String :=
  (scanKwListAux (kws.map (·.data)) none s.data).map String.mk

def directionWords : List String :=
  ["northbound", "southbound", "eastbound", "westbound",
   "north", "south", "east", "west"]

def incidentWords : List String :=
  ["collision", "crash", "accident", "breakdown", "roadworks",
   "construction", "incident"]

def congestionLevelWords : List String :=
  ["none", "light", "moderate", "heavy", "severe"]

/-- `(traffic|congestion)\b` right after the whitespace run. -/
def congestionNounAfter (rest : List Char) : Bool :=
  match takeKwCI "traffic".data rest with
  | some (_, r) => boundaryAfter r
  | none =>
      match takeKwCI "congestion".data rest with
      | some (_, r) => boundaryAfter r
      | none => false

/-- The level alternatives of the congestion regex at one position. -/
def congestionLevelAt (kws : List String) (s : List Char) : Option (List Char) :=
  match kws with
  | [] => none
  | kw :: ks =>
      match takeKwCI kw.data s with
      | some (m, rest) =>
          let ws := rest.takeWhile (·.isWhitespace)
          if !ws.isEmpty && congestionNounAfter (rest.drop ws.length) then some m
          else congestionLevelAt ks s
      | none => congestionLevelAt ks s

def scanCongestionAux : Option Char → List Char → Option (List Char)
  | _, [] => none
  | prev, c :: rest =>
      if boundaryBefore prev then
        match congestionLevelAt congestionLevelWords (c :: rest) with
        | some m => some m
        | none => scanCongestionAux (some c) rest
      else scanCongestionAux (some c) rest

/-- Leftmost match of
`/\b(none|light|moderate|heavy|severe)\s+(traffic|congestion)\b/i`,
returning the level as written. -/
def scanCongestionPair (s : String) : Option String :=
  (scanCongestionAux none s.data).map String.mk

/-- `(km\/h|mph|kph)` case-insensitively, in regex alternation order. -/
def speedUnitAt (s : List Char) : Option (List Char) :=
  match takeKwCI "km/h".data s with
  | some (m, _) => some m
  | none =>
      match takeKwCI "mph".data s with
      | some (m, _) => some m
      | none =>
          match takeKwCI "kph".data s with
          | some (m, _) => some m
          | none => none

/-- `(\d+)\s*(unit)?` starting at `r`: the digits and the optional unit. -/
def speedDigitsUnit (r : List Char) : Option (List Char × Option (List Char)) :=
  let digits := r.takeWhile (·.isDigit)
  if digits.isEmpty then none
  else
    let afterDigits := r.drop digits.length
    let ws := afterDigits.takeWhile (·.isWhitespace)
    some (digits, speedUnitAt (afterDigits.drop ws.length))

/-- `/(?:speed[:\s]+|at\s+)(\d+)\s*(km\/h|mph|kph)?/i` at one position. -/
def speedAt (s : List Char) : Option (List Char × Option (List Char)) :=
  match takeKwCI "speed".data s with
  | some (_, rest) =>
      let run := rest.takeWhile (fun c => c == ':' || c.isWhitespace)
      if run.isEmpty then none else speedDigitsUnit (rest.drop run.length)
  | none =>
      match takeKwCI "at".data s with
      | some (_, rest) =>
          let ws := rest.takeWhile (·.isWhitespace)
          if ws.isEmpty then none else speedDigitsUnit (rest.drop ws.length)
      | none => none

def scanSpeed1Aux : List Char → Option (List Char × Option (List Char))
  | [] => none
  | c :: rest =>
      match speedAt (c :: rest) with
      | some m => some m
      | none => scanSpeed1Aux rest

/-- `/(\d+)\s*(km\/h|mph|kph)/i` at one position (the unit is required). -/
def speedAt2 (s : List Char) : Option (List Char × Option (List Char)) :=
  let digits := s.takeWhile (·.isDigit)
  if digits.isEmpty then none
  else
    let afterDigits := s.drop digits.length
    let ws := afterDigits.takeWhile (·.isWhitespace)
    match speedUnitAt (afterDigits.drop ws.length) with
    | some u => some (digits, some u)
    | none => none

def scanSpeed2Aux : List Char → Option (List Char × Option (List Char))
  | [] => none
  | c :: rest =>
      match speedAt2 (c :: rest) with
      | some m => some m
      | none => scanSpeed2Aux rest

/-- The speed pattern: the first regex, then the looser fallback regex. -/
def scanSpeed (s : String) : Option (String × Option String) :=
  match scanSpeed1Aux s.data with
  | some (d, u) => some (String.mk d, u.map String.mk)
  | none =>
      match scanSpeed2Aux s.data with
      | some (d, u) => some (String.mk d, u.map String.mk)
      | none => none

/-- Zero-pad a three-digit fractional part. -/
def pad3 (n : ℕ) : String :=
  if n < 10 then "00" ++ toString n
  else if n < 100 then "0" ++ toString n
  else toString n

/-- JS `Number.prototype.toFixed(3)` (up to floating-point artifacts). -/
def toFixed3 (q : ℚ) : String :=
  let n : ℤ := jsRound (|q| * 1000)
  let sign := if q < 0 ∧ n ≠ 0 then "-" else ""
  sign ++ toString (n / 1000) ++ "." ++ pad3 (n % 1000).toNat

structure EnrichLocation where
  lat : Option ℚ := none
  lon : Option ℚ := none
deriving DecidableEq

/-- The record-shaped input of `createFallbackResult` (the fields it reads
from a normalized traffic record). -/
structure EnrichRecord where
  road : Option String := none
  direction : Option String := none
  congestionLevel : Option String := none
  congestion : Option String := none
  incidentType : Option String := none
  location : Option EnrichLocation := none
  lat : Option ℚ := none
  lon : Option ℚ := none
  averageSpeed : Option ℤ := none
deriving DecidableEq

/-- Raw text or a record object — the two input shapes of `extractSegment`. -/
inductive EnrichInput where
  | text (s : String)
  | record (r : EnrichRecord)

/-- `createFallbackResult` from `extractSegment.js`. -/
def createFallbackResult : EnrichInput → ExtractResult
  | .text s =>
      let road := (scanRoadCode s).map strUpper
      let direction := scanKwList directionWords s
      let congestion := scanCongestionPair s
      let incidentType := scanKwList incidentWords s
      let speed := (scanSpeed s).map (fun p => p.1 ++ " " ++ p.2.getD "km/h")
      let extracted : ExtractResult :=
        { road := road, direction := direction, segment := none, landmark := none
          congestion := congestion, speed := speed, incidentType := incidentType
          rawExtracted := false }
      { extracted with humanReadable := some (generateHumanReadable extracted) }
  | .record r =>
      let lat := jsOrOptQ (r.location.bind (·.lat)) r.lat
      let lon := jsOrOptQ (r.location.bind (·.lon)) r.lon
      let segment :=
        if truthyQ lat && truthyQ lon then
          some ("Coordinates: " ++ toFixed3 (lat.getD 0) ++ ", " ++ toFixed3 (lon.getD 0))
        else none
      let extracted : ExtractResult :=
        { road := truthyOrNone r.road
          direction := truthyOrNone r.direction
          segment := segment
          landmark := none
          congestion := jsOrNullStr r.congestionLevel r.congestion
          speed := match r.averageSpeed with
            | some v => if v = 0 then none else some (toString v ++ " km/h")
            | none => none
          incidentType := truthyOrNone r.incidentType
          rawExtracted := false }
      { extracted with humanReadable := some (generateHumanReadable extracted) }

/-- Outcome of the LLM round trip (`callLLM` + `parseLLMResponse`): a parsed
structure, or any of the failure modes, all of which throw into the same
`catch` of `extractSegment`. -/
inductive AttemptOutcome where
  | parsed (e : ExtractResult)
  | failed (msg : String)

/-- The non-cached path of `extractSegment` (its `try`/`catch`). -/
def extractSegmentFresh (outcome : AttemptOutcome) (provider : String)
    (fallbackOpt : Bool) (input : EnrichInput) : Except String ExtractResult :=
  match outcome with
  | .parsed extracted =>
      let humanReadable := generateHumanReadable extracted
      .ok { extracted with
              humanReadable := some humanReadable
              cached := false
              llmProvider := some provider }
  | .failed msg =>
      if fallbackOpt then
        let fallbackResult := createFallbackResult input
        .ok { fallbackResult with extractionError := some msg, fallback := true }
      else .error msg

/-- `extractSegment(trafficData, { useCache, fallback })`, with the cache
entry for the input's key and the clock made explicit (the write-back of a
fresh result only matters for later calls and is not modelled). -/
def extractSegment (outcome : AttemptOutcome) (provider : String)
    (cached : Option (ExtractResult × ℕ)) (now : ℕ) (input : EnrichInput)
    (useCache fallbackOpt : Bool) : Except String ExtractResult :=
  match cached with
  | some (v, ts) =>
      if useCache && (now - ts < CACHE_TTL_MS) then .ok { v with cached := true }
      else extractSegmentFresh outcome provider fallbackOpt input
  | none => extractSegmentFresh outcome provider fallbackOpt input

/-! ### Helper definitions and lemmas for the claim theorems -/

/-- The raw (pre-division) TII delay that both `delayMinutes` and
`congestionLevel` of `normalizeTIIRecord` are computed from. -/
def tiiRawDelay (record : TIIRaw) : ℕ :=
  let situationRecord := (record.situation.getD {}).situationRecord.head?.getD {}
  let travelTime := situationRecord.travelTime.getD 0
  travelTime - jsOrNat situationRecord.freeFlowTravelTime travelTime

lemma normalizeTIIRecord_delayMinutes (nowIso : String) (record : TIIRaw) :
    (normalizeTIIRecord nowIso record).delayMinutes = roundDiv60 (tiiRawDelay record) :=
  rfl

lemma normalizeTIIRecord_congestionLevel (nowIso : String) (record : TIIRaw) :
    (normalizeTIIRecord nowIso record).congestionLevel =
      (if tiiRawDelay record > 10 then "heavy"
       else if tiiRawDelay record > 5 then "moderate"
       else if tiiRawDelay record > 2 then "light"
       else "none") :=
  rfl

/-- The ordinal rank of a congestion level: none < light < moderate < heavy. -/
def levelRank (level : String) : ℕ :=
  if level == "heavy" then 3
  else if level == "moderate" then 2
  else if level == "light" then 1
  else 0

lemma levelRank_le_three (level : String) : levelRank level ≤ 3 := by
  unfold levelRank
  split_ifs <;> omega

lemma round1_nonneg (x : ℚ) (hx : 0 ≤ x) : 0 ≤ round1 x := by
  unfold round1 jsRound
  have h1 : (0 : ℤ) ≤ ⌊x * 10 + 1/2⌋ := Int.floor_nonneg.mpr (by linarith)
  have h2 : (0 : ℚ) ≤ ((⌊x * 10 + 1/2⌋ : ℤ) : ℚ) := by exact_mod_cast h1
  linarith

lemma cacheGet_cacheSet_self {α : Type} (c : Cache α) (k : String) (e : CacheEntry α) :
    cacheGet (cacheSet c k e) k = some e := by
  unfold cacheGet cacheSet
  rw [List.find?_cons_of_pos _ (by simp)]
  rfl

/-! ### C2 — national-roads congestion thresholds -/

def c2SituationRecord : TIISituationRecord :=
  { roadName := some "M1"
    directionBound := some "Northbound"
    travelTime := some 1680
    freeFlowTravelTime := some 1320 }

/-- The end-to-end scenario record: raw DATEX travel times of 1680 s and
1320 s, which normalize to 28 min and 22 min. -/
def c2Raw : TIIRaw :=
  { situation := some { situationRecord := [c2SituationRecord] } }

/-- **C2** (code bug): `normalizeTIIRecord` compares the `10`/`5`/`2`
thresholds against the raw delay *before* dividing by 60, so the scenario
record with `travelTimeMinutes = 28` and `freeFlowTimeMinutes = 22` gets
`delayMinutes = 6` but `congestionLevel = "heavy"` — not the `"moderate"`
required by the claim and by the repository's own README example — and the
summary's `moderate` bucket stays `0` for it. -/
theorem c2_tii_thresholds_divergence :
    (normalizeTIIRecord "2026-02-10T17:45:00.000Z" c2Raw).travelTimeMinutes = 28 ∧
    (normalizeTIIRecord "2026-02-10T17:45:00.000Z" c2Raw).freeFlowTimeMinutes = 22 ∧
    (normalizeTIIRecord "2026-02-10T17:45:00.000Z" c2Raw).delayMinutes = 6 ∧
    (normalizeTIIRecord "2026-02-10T17:45:00.000Z" c2Raw).congestionLevel = "heavy" ∧
    (summaryOf [{ source := "TII-Ireland"
                  congestionLevel :=
                    (normalizeTIIRecord "2026-02-10T17:45:00.000Z" c2Raw).congestionLevel }]).moderateCount = 0 ∧
    (summaryOf [{ source := "TII-Ireland"
                  congestionLevel :=
                    (normalizeTIIRecord "2026-02-10T17:45:00.000Z" c2Raw).congestionLevel }]).heavyCount = 1 :=
  ⟨by decide, by decide, by decide, by decide, by decide, by decide⟩

/-! ### C4 — junction report recommendation ladder -/

def c4Segment3 : SegmentResult :=
  { name := "J10-J9 Drogheda", normalTime := 5, currentTime := some 8,
    delayMinutes := 3, emoji := "🟡" }

def c4Segment7 : SegmentResult :=
  { name := "J9-J8 Drogheda-Duleek", normalTime := 8, currentTime := some 15,
    delayMinutes := 7, emoji := "🟡" }

def c4Segment12 : SegmentResult :=
  { name := "J7-J6 Julianstown-Balbriggan", normalTime := 8, currentTime := some 20,
    delayMinutes := 12, emoji := "🟠" }

def c4Segment20 : SegmentResult :=
  { name := "J5-J4 Balbriggan-Donabate", normalTime := 7, currentTime := some 27,
    delayMinutes := 20, emoji := "🔴" }

/-- **C4 counterexample**: a synthetic segment list with `totalDelay = 3`
selects the *clear* message, not the minor-delay tier the claim announces for
the value 3. -/
theorem c4_counterexample_totalDelay3_is_clear :
    totalDelayOf [c4Segment3] = 3 ∧
    reportRecommendation (totalDelayOf [c4Segment3]) (worstSegmentOf [c4Segment3]) =
      "🟢 Route is clear. Normal travel time expected." ∧
    reportRecommendation (totalDelayOf [c4Segment3]) (worstSegmentOf [c4Segment3]) ≠
      "🟡 Minor delays. Allow extra 3 minutes, mainly at J10-J9 Drogheda." :=
  ⟨by decide, by decide, by decide⟩

/-- **C4 (amended)**: the recommendation is the strict threshold ladder on
`totalDelay` (`≥15` major, `≥10` significant, `≥5` minor, else clear), and for
the synthetic totals 3, 7, 12 and 20 the selected tiers are clear, minor,
significant and major respectively. -/
theorem c4_amended_recommendation_ladder (segmentResults : List SegmentResult) :
    (15 ≤ totalDelayOf segmentResults →
      reportRecommendation (totalDelayOf segmentResults) (worstSegmentOf segmentResults) =
        "🔴 Major delays! Consider alternative route or delay departure by " ++
          toString (ceilDiv5Times5 (totalDelayOf segmentResults)) ++ " mins.") ∧
    (10 ≤ totalDelayOf segmentResults → totalDelayOf segmentResults < 15 →
      reportRecommendation (totalDelayOf segmentResults) (worstSegmentOf segmentResults) =
        "🟠 Significant delays at " ++ (worstSegmentOf segmentResults).name ++
          ". Allow extra " ++ toString (totalDelayOf segmentResults) ++ " minutes.") ∧
    (5 ≤ totalDelayOf segmentResults → totalDelayOf segmentResults < 10 →
      reportRecommendation (totalDelayOf segmentResults) (worstSegmentOf segmentResults) =
        "🟡 Minor delays. Allow extra " ++ toString (totalDelayOf segmentResults) ++
          " minutes, mainly at " ++ (worstSegmentOf segmentResults).name ++ ".") ∧
    (totalDelayOf segmentResults < 5 →
      reportRecommendation (totalDelayOf segmentResults) (worstSegmentOf segmentResults) =
        "🟢 Route is clear. Normal travel time expected.") ∧
    reportRecommendation (totalDelayOf [c4Segment3]) (worstSegmentOf [c4Segment3]) =
      "🟢 Route is clear. Normal travel time expected." ∧
    reportRecommendation (totalDelayOf [c4Segment7]) (worstSegmentOf [c4Segment7]) =
      "🟡 Minor delays. Allow extra 7 minutes, mainly at J9-J8 Drogheda-Duleek." ∧
    reportRecommendation (totalDelayOf [c4Segment12]) (worstSegmentOf [c4Segment12]) =
      "🟠 Significant delays at J7-J6 Julianstown-Balbriggan. Allow extra 12 minutes." ∧
    reportRecommendation (totalDelayOf [c4Segment20]) (worstSegmentOf [c4Segment20]) =
      "🔴 Major delays! Consider alternative route or delay departure by 20 mins." := by
  refine ⟨?_, ?_, ?_, ?_, by decide, by decide, by decide, by decide⟩
  · intro h15
    unfold reportRecommendation
    rw [if_pos h15]
  · intro h10 h15
    unfold reportRecommendation
    rw [if_neg (by omega), if_pos h10]
  · intro h5 h10
    unfold reportRecommendation
    rw [if_neg (by omega), if_neg (by omega), if_pos h5]
  · intro h5
    unfold reportRecommendation
    rw [if_neg (by omega), if_neg (by omega), if_neg (by omega)]

/-- Witness for the amended C4 ladder at a concrete major-delay input. -/
theorem c4_amended_recommendation_ladder_witness :
    15 ≤ totalDelayOf [c4Segment20] ∧
    reportRecommendation (totalDelayOf [c4Segment20]) (worstSegmentOf [c4Segment20]) =
      "🔴 Major delays! Consider alternative route or delay departure by " ++
        toString (ceilDiv5Times5 (totalDelayOf [c4Segment20])) ++ " mins." :=
  ⟨by decide, (c4_amended_recommendation_ladder [c4Segment20]).1 (by decide)⟩

/-! ### C5 — delayMinutes invariant -/

/-- A TII feed record whose independent minute roundings disagree:
149 s / 31 s → 2 min / 1 min, but delay 118 s → 2 min. -/
def c5Raw : TIIRaw :=
  { situation := some { situationRecord :=
      [{ travelTime := some 149, freeFlowTravelTime := some 31 }] } }

/-- **C5 counterexample**: for the TII adapter, `delayMinutes` does not equal
`max(0, travelTimeMinutes - freeFlowTimeMinutes)` on the normalized record —
the delay is rounded independently of the two time fields. -/
theorem c5_counterexample_rounded_fields_disagree :
    (normalizeTIIRecord "t" c5Raw).delayMinutes = 2 ∧
    (normalizeTIIRecord "t" c5Raw).travelTimeMinutes = 2 ∧
    (normalizeTIIRecord "t" c5Raw).freeFlowTimeMinutes = 1 ∧
    ((normalizeTIIRecord "t" c5Raw).delayMinutes : ℤ) ≠
      max 0 (((normalizeTIIRecord "t" c5Raw).travelTimeMinutes : ℤ) -
        ((normalizeTIIRecord "t" c5Raw).freeFlowTimeMinutes : ℤ)) :=
  ⟨by decide, by decide, by decide, by decide⟩

/-- **C5 (amended)**: every adapter's `delayMinutes` is non-negative, and the
delay is `max(0, travel - freeFlow)` computed on the provider's *raw* time
values before unit rounding: for TII all three minute fields are the 60-second
rounding of one triple of raw values with `delay = max(0, t - f)` (ℕ
subtraction), and for the commercial adapter the minute-field identity
`delayMinutes = max(0, durationInTrafficMinutes - durationMinutes)` holds
exactly. -/
theorem c5_amended_delay_nonneg :
    (∀ (record : TIIRaw) (nowIso : String), ∃ t f : ℕ,
      (normalizeTIIRecord nowIso record).delayMinutes = roundDiv60 (t - f) ∧
      (normalizeTIIRecord nowIso record).travelTimeMinutes = roundDiv60 t ∧
      (normalizeTIIRecord nowIso record).freeFlowTimeMinutes = roundDiv60 f) ∧
    (∀ (nowIso : String) (site : WSite) (report : WReport),
      0 ≤ (normalizeWebTRISRecord nowIso site report).delayMinutes) ∧
    (∀ (nowIso : String) (route : GRoute) (origin destination : String)
        (road : Option String),
      (normalizeGoogleMapsData nowIso route origin destination road).delayMinutes =
        max 0 ((normalizeGoogleMapsData nowIso route origin destination road).durationInTrafficMinutes -
          (normalizeGoogleMapsData nowIso route origin destination road).durationMinutes) ∧
      0 ≤ (normalizeGoogleMapsData nowIso route origin destination road).delayMinutes) := by
  refine ⟨?_, ?_, ?_⟩
  · intro record nowIso
    refine ⟨((record.situation.getD {}).situationRecord.head?.getD {}).travelTime.getD 0,
      jsOrNat ((record.situation.getD {}).situationRecord.head?.getD {}).freeFlowTravelTime
        (((record.situation.getD {}).situationRecord.head?.getD {}).travelTime.getD 0),
      rfl, rfl, rfl⟩
  · intro nowIso site report
    exact round1_nonneg _ (le_max_left 0 _)
  · intro nowIso route origin destination road
    exact ⟨rfl, le_max_left 0 _⟩

/-! ### C6 — congestion monotone in delayMinutes -/

/-- Commercial-adapter leg: 60 s free-flow, 132 s in traffic (ratio 2.2). -/
def c6RouteShortHeavy : GRoute :=
  { legs := [{ durationValue := some 60, durationInTrafficValue := some 132 }] }

/-- Commercial-adapter leg: 6000 s free-flow, 6600 s in traffic (ratio 1.1). -/
def c6RouteLongModerate : GRoute :=
  { legs := [{ durationValue := some 6000, durationInTrafficValue := some 6600 }] }

/-- **C6 counterexample**: two records of the commercial adapter where the
record with the *larger* `delayMinutes` (10 vs 1) has the *strictly lower*
congestion level (moderate vs heavy) — the ratio clause of
`calculateCongestion` breaks monotonicity in `delayMinutes`. -/
theorem c6_counterexample_google_not_monotone :
    (normalizeGoogleMapsData "t" c6RouteShortHeavy "o" "d" (some "M1")).delayMinutes = 1 ∧
    (normalizeGoogleMapsData "t" c6RouteLongModerate "o" "d" (some "M1")).delayMinutes = 10 ∧
    (normalizeGoogleMapsData "t" c6RouteShortHeavy "o" "d" (some "M1")).congestionLevel = "heavy" ∧
    (normalizeGoogleMapsData "t" c6RouteLongModerate "o" "d" (some "M1")).congestionLevel = "moderate" ∧
    levelRank (normalizeGoogleMapsData "t" c6RouteLongModerate "o" "d" (some "M1")).congestionLevel <
      levelRank (normalizeGoogleMapsData "t" c6RouteShortHeavy "o" "d" (some "M1")).congestionLevel := by
  refine ⟨?_, ?_, ?_, ?_, ?_⟩ <;>
    · norm_num [normalizeGoogleMapsData, calculateCongestion, levelRank, jsOrQ, jsRound,
        c6RouteShortHeavy, c6RouteLongModerate]
      try decide

/-- **C6 (amended)**: for the national-roads (TII) adapter the property does
hold — across any two normalized TII records a strictly larger `delayMinutes`
never comes with a strictly lower congestion level (any record with
`delayMinutes ≥ 1` is classified heavy). -/
theorem c6_amended_tii_monotone (nowIso₁ nowIso₂ : String) (r₁ r₂ : TIIRaw)
    (h : (normalizeTIIRecord nowIso₁ r₁).delayMinutes <
      (normalizeTIIRecord nowIso₂ r₂).delayMinutes) :
    levelRank (normalizeTIIRecord nowIso₁ r₁).congestionLevel ≤
      levelRank (normalizeTIIRecord nowIso₂ r₂).congestionLevel := by
  rw [normalizeTIIRecord_delayMinutes, normalizeTIIRecord_delayMinutes] at h
  rw [normalizeTIIRecord_congestionLevel nowIso₂]
  have h30 : 30 ≤ tiiRawDelay r₂ := by
    unfold roundDiv60 at h
    omega
  rw [if_pos (by omega : tiiRawDelay r₂ > 10)]
  have h3 := levelRank_le_three (normalizeTIIRecord nowIso₁ r₁).congestionLevel
  have hh : levelRank "heavy" = 3 := rfl
  omega

def c6RawZero : TIIRaw :=
  { situation := some { situationRecord :=
      [{ travelTime := some 100, freeFlowTravelTime := some 100 }] } }

def c6RawSix : TIIRaw :=
  { situation := some { situationRecord :=
      [{ travelTime := some 1680, freeFlowTravelTime := some 1320 }] } }

/-- Witness for the amended C6 monotonicity at two concrete TII records. -/
theorem c6_amended_tii_monotone_witness :
    (normalizeTIIRecord "t" c6RawZero).delayMinutes <
      (normalizeTIIRecord "t" c6RawSix).delayMinutes ∧
    levelRank (normalizeTIIRecord "t" c6RawZero).congestionLevel ≤
      levelRank (normalizeTIIRecord "t" c6RawSix).congestionLevel :=
  ⟨by decide, c6_amended_tii_monotone "t" "t" c6RawZero c6RawSix (by decide)⟩

/-! ### C7 — adapter failure behaviour -/

/-- **C7 counterexample**: a WebTRIS fetch whose site-discovery call times
out resolves with `data = []` but *no* `error` string — the failure is
swallowed inside `fetchSites`, contradicting the claim that every ordinary
failure surfaces an error string. -/
theorem c7_counterexample_webtris_timeout_no_error :
    (fetchWebTRISTraffic ⟨.err "timeout of 10000ms exceeded", .ok []⟩ 0 "t" [] "M1").result.data = [] ∧
    (fetchWebTRISTraffic ⟨.err "timeout of 10000ms exceeded", .ok []⟩ 0 "t" [] "M1").result.error = none ∧
    (fetchWebTRISTraffic ⟨.err "timeout of 10000ms exceeded", .ok []⟩ 0 "t" [] "M1").networkCalls = 1 :=
  ⟨rfl, rfl, rfl⟩

/-- **C7 (amended)**: every adapter fetch resolves (the model is a total
function) with `data = []` on failure; TII and Google Maps attach an error
string for transport failures, a missing API key and non-OK API status, but
WebTRIS swallows failures of its site/report sub-fetches and resolves with
`data = []` and no error field. -/
theorem c7_amended_failure_shapes :
    (∀ (msg nowIso road : String) (now : ℕ),
      (fetchTIITraffic (.err msg) now nowIso [] road).result.data = [] ∧
      (fetchTIITraffic (.err msg) now nowIso [] road).result.error = some msg) ∧
    (∀ (msg nowIso road : String) (now : ℕ) (reports : SubFetch WReport),
      (fetchWebTRISTraffic ⟨.err msg, reports⟩ now nowIso [] road).result.data = [] ∧
      (fetchWebTRISTraffic ⟨.err msg, reports⟩ now nowIso [] road).result.error = none) ∧
    (∀ (net : GNet) (now : ℕ) (nowIso origin destination : String) (road : Option String),
      (fetchGoogleMapsTraffic none net now nowIso [] origin destination road).result.data = [] ∧
      (fetchGoogleMapsTraffic none net now nowIso [] origin destination road).result.error =
        some "Google Maps API Key not configured" ∧
      (fetchGoogleMapsTraffic none net now nowIso [] origin destination road).networkCalls = 0) ∧
    (∀ (k msg nowIso origin destination : String) (now : ℕ) (road : Option String),
      k ≠ "" →
      (fetchGoogleMapsTraffic (some k) (.transportErr msg) now nowIso []
          origin destination road).result.data = [] ∧
      (fetchGoogleMapsTraffic (some k) (.transportErr msg) now nowIso []
          origin destination road).result.error = some msg) ∧
    (∀ (k status nowIso origin destination : String) (now : ℕ) (road : Option String),
      k ≠ "" →
      (fetchGoogleMapsTraffic (some k) (.badStatus status) now nowIso []
          origin destination road).result.data = [] ∧
      (fetchGoogleMapsTraffic (some k) (.badStatus status) now nowIso []
          origin destination road).result.error =
        some ("Google Maps API Error: " ++ status)) := by
  refine ⟨fun msg nowIso road now => ⟨rfl, rfl⟩,
    fun msg nowIso road now reports => ⟨rfl, rfl⟩,
    fun net now nowIso origin destination road => ⟨rfl, rfl, rfl⟩, ?_, ?_⟩
  · intro k msg nowIso origin destination now road hk
    have hkb : truthyStr (some k) = true := by
      simp [truthyStr, hk]
    unfold fetchGoogleMapsTraffic
    rw [hkb]
    exact ⟨rfl, rfl⟩
  · intro k status nowIso origin destination now road hk
    have hkb : truthyStr (some k) = true := by
      simp [truthyStr, hk]
    unfold fetchGoogleMapsTraffic
    rw [hkb]
    exact ⟨rfl, rfl⟩

/-- Witness for the amended C7 at a concrete key and failure. -/
theorem c7_amended_failure_shapes_witness :
    ("key" : String) ≠ "" ∧
    (fetchGoogleMapsTraffic (some "key") (.transportErr "timeout of 10000ms exceeded")
        0 "t" [] "Drogheda Ireland" "George Street, Drogheda, Ireland" (some "George Street")).result.data = [] ∧
    (fetchGoogleMapsTraffic (some "key") (.transportErr "timeout of 10000ms exceeded")
        0 "t" [] "Drogheda Ireland" "George Street, Drogheda, Ireland" (some "George Street")).result.error =
      some "timeout of 10000ms exceeded" :=
  ⟨by decide,
    (c7_amended_failure_shapes.2.2.2.1 "key" "timeout of 10000ms exceeded" "t"
      "Drogheda Ireland" "George Street, Drogheda, Ireland" 0 (some "George Street")
      (by decide)).1,
    (c7_amended_failure_shapes.2.2.2.1 "key" "timeout of 10000ms exceeded" "t"
      "Drogheda Ireland" "George Street, Drogheda, Ireland" 0 (some "George Street")
      (by decide)).2⟩

/-! ### C8 — cache round trip and expiry -/

/-- **C8 counterexample**: a failed fetch caches nothing, so an immediate
second fetch for the same key (1 s later, well inside the TTL) issues another
network call and returns nothing from the cache — the claim's universal
round-trip property fails for fetches that did not cache. -/
theorem c8_counterexample_failed_fetch_not_cached :
    (fetchTIITraffic (.err "timeout of 10000ms exceeded") 0 "t0" [] "M1").networkCalls = 1 ∧
    (fetchTIITraffic (.err "timeout of 10000ms exceeded") 1000 "t1"
        (fetchTIITraffic (.err "timeout of 10000ms exceeded") 0 "t0" [] "M1").cache "M1").networkCalls = 1 ∧
    (fetchTIITraffic (.err "timeout of 10000ms exceeded") 1000 "t1"
        (fetchTIITraffic (.err "timeout of 10000ms exceeded") 0 "t0" [] "M1").cache "M1").result.fromCache = none :=
  ⟨rfl, rfl, rfl⟩

/-- **C8 (amended)**: whenever the first fetch cached a result (TII: any
successful payload; WebTRIS: at least one discovered site; Google Maps: a
non-empty API key and at least one route), a second fetch for the same key
within the 5-minute TTL returns the identical data with `fromCache = true`
and no network call, and a second fetch at or past the TTL hits the network
again. -/
theorem c8_amended_cache_roundtrip_and_expiry :
    (∀ (sits : List TIIRaw) (now₁ now₂ : ℕ) (iso₁ iso₂ road : String) (net₂ : TIINet),
      now₂ - now₁ < CACHE_TTL_MS →
      (fetchTIITraffic net₂ now₂ iso₂
          (fetchTIITraffic (.ok sits) now₁ iso₁ [] road).cache road).result.data =
        (fetchTIITraffic (.ok sits) now₁ iso₁ [] road).result.data ∧
      (fetchTIITraffic net₂ now₂ iso₂
          (fetchTIITraffic (.ok sits) now₁ iso₁ [] road).cache road).result.fromCache = some true ∧
      (fetchTIITraffic net₂ now₂ iso₂
          (fetchTIITraffic (.ok sits) now₁ iso₁ [] road).cache road).networkCalls = 0) ∧
    (∀ (sits : List TIIRaw) (now₁ now₂ : ℕ) (iso₁ iso₂ road : String) (net₂ : TIINet),
      CACHE_TTL_MS ≤ now₂ - now₁ →
      (fetchTIITraffic net₂ now₂ iso₂
          (fetchTIITraffic (.ok sits) now₁ iso₁ [] road).cache road).networkCalls = 1) ∧
    (∀ (site : WSite) (rest : List WSite) (reports : SubFetch WReport)
        (now₁ now₂ : ℕ) (iso₁ iso₂ road : String) (net₂ : WebTRISNet),
      now₂ - now₁ < CACHE_TTL_MS →
      (fetchWebTRISTraffic net₂ now₂ iso₂
          (fetchWebTRISTraffic ⟨.ok (site :: rest), reports⟩ now₁ iso₁ [] road).cache road).result.data =
        (fetchWebTRISTraffic ⟨.ok (site :: rest), reports⟩ now₁ iso₁ [] road).result.data ∧
      (fetchWebTRISTraffic net₂ now₂ iso₂
          (fetchWebTRISTraffic ⟨.ok (site :: rest), reports⟩ now₁ iso₁ [] road).cache road).result.fromCache = some true ∧
      (fetchWebTRISTraffic net₂ now₂ iso₂
          (fetchWebTRISTraffic ⟨.ok (site :: rest), reports⟩ now₁ iso₁ [] road).cache road).networkCalls = 0) ∧
    (∀ (site : WSite) (rest : List WSite) (reports : SubFetch WReport)
        (now₁ now₂ : ℕ) (iso₁ iso₂ road : String) (sites₂ : SubFetch WSite) (reports₂ : SubFetch WReport),
      CACHE_TTL_MS ≤ now₂ - now₁ →
      1 ≤ (fetchWebTRISTraffic ⟨sites₂, reports₂⟩ now₂ iso₂
          (fetchWebTRISTraffic ⟨.ok (site :: rest), reports⟩ now₁ iso₁ [] road).cache road).networkCalls) ∧
    (∀ (k : String) (route : GRoute) (rs : List GRoute) (now₁ now₂ : ℕ)
        (iso₁ iso₂ origin destination : String) (road : Option String) (net₂ : GNet),
      k ≠ "" →
      now₂ - now₁ < CACHE_TTL_MS →
      (fetchGoogleMapsTraffic (some k) net₂ now₂ iso₂
          (fetchGoogleMapsTraffic (some k) (.okRoutes (route :: rs)) now₁ iso₁ []
            origin destination road).cache origin destination road).result.data =
        (fetchGoogleMapsTraffic (some k) (.okRoutes (route :: rs)) now₁ iso₁ []
          origin destination road).result.data ∧
      (fetchGoogleMapsTraffic (some k) net₂ now₂ iso₂
          (fetchGoogleMapsTraffic (some k) (.okRoutes (route :: rs)) now₁ iso₁ []
            origin destination road).cache origin destination road).result.fromCache = some true ∧
      (fetchGoogleMapsTraffic (some k) net₂ now₂ iso₂
          (fetchGoogleMapsTraffic (some k) (.okRoutes (route :: rs)) now₁ iso₁ []
            origin destination road).cache origin destination road).networkCalls = 0) ∧
    (∀ (k : String) (route : GRoute) (rs : List GRoute) (now₁ now₂ : ℕ)
        (iso₁ iso₂ origin destination : String) (road : Option String) (net₂ : GNet),
      k ≠ "" →
      CACHE_TTL_MS ≤ now₂ - now₁ →
      (fetchGoogleMapsTraffic (some k) net₂ now₂ iso₂
          (fetchGoogleMapsTraffic (some k) (.okRoutes (route :: rs)) now₁ iso₁ []
            origin destination road).cache origin destination road).networkCalls = 1) := by
  refine ⟨?_, ?_, ?_, ?_, ?_, ?_⟩
  · intro sits now₁ now₂ iso₁ iso₂ road net₂ h
    have hc : (fetchTIITraffic (.ok sits) now₁ iso₁ [] road).cache =
        cacheSet [] (getCacheKeyTII road)
          ⟨(fetchTIITraffic (.ok sits) now₁ iso₁ [] road).result.data, now₁⟩ := rfl
    rw [show (fetchTIITraffic net₂ now₂ iso₂
        (fetchTIITraffic (.ok sits) now₁ iso₁ [] road).cache road) =
        ⟨{ data := (fetchTIITraffic (.ok sits) now₁ iso₁ [] road).result.data,
           fromCache := some true },
         (fetchTIITraffic (.ok sits) now₁ iso₁ [] road).cache, 0⟩ from ?_]
    · exact ⟨rfl, rfl, rfl⟩
    · conv_lhs => rw [fetchTIITraffic, hc, cacheGet_cacheSet_self]
      simp [isCacheValid, h, hc]
  · intro sits now₁ now₂ iso₁ iso₂ road net₂ h
    have hc : (fetchTIITraffic (.ok sits) now₁ iso₁ [] road).cache =
        cacheSet [] (getCacheKeyTII road)
          ⟨(fetchTIITraffic (.ok sits) now₁ iso₁ [] road).result.data, now₁⟩ := rfl
    rw [fetchTIITraffic, hc, cacheGet_cacheSet_self]
    have hv : ¬ (now₂ - now₁ < CACHE_TTL_MS) := by omega
    simp only [isCacheValid, decide_eq_true_eq, if_neg hv]
    cases net₂ <;> rfl
  · intro site rest reports now₁ now₂ iso₁ iso₂ road net₂ h
    have hc : (fetchWebTRISTraffic ⟨.ok (site :: rest), reports⟩ now₁ iso₁ [] road).cache =
        cacheSet [] (getCacheKeyWebTRIS road)
          ⟨(fetchWebTRISTraffic ⟨.ok (site :: rest), reports⟩ now₁ iso₁ [] road).result.data, now₁⟩ := rfl
    rw [show (fetchWebTRISTraffic net₂ now₂ iso₂
        (fetchWebTRISTraffic ⟨.ok (site :: rest), reports⟩ now₁ iso₁ [] road).cache road) =
        ⟨{ data := (fetchWebTRISTraffic ⟨.ok (site :: rest), reports⟩ now₁ iso₁ [] road).result.data,
           fromCache := some true },
         (fetchWebTRISTraffic ⟨.ok (site :: rest), reports⟩ now₁ iso₁ [] road).cache, 0⟩ from ?_]
    · exact ⟨rfl, rfl, rfl⟩
    · conv_lhs => rw [fetchWebTRISTraffic, hc, cacheGet_cacheSet_self]
      simp [isCacheValid, h, hc]
  · intro site rest reports now₁ now₂ iso₁ iso₂ road sites₂ reports₂ h
    have hc : (fetchWebTRISTraffic ⟨.ok (site :: rest), reports⟩ now₁ iso₁ [] road).cache =
        cacheSet [] (getCacheKeyWebTRIS road)
          ⟨(fetchWebTRISTraffic ⟨.ok (site :: rest), reports⟩ now₁ iso₁ [] road).result.data, now₁⟩ := rfl
    rw [fetchWebTRISTraffic, hc, cacheGet_cacheSet_self]
    have hv : ¬ (now₂ - now₁ < CACHE_TTL_MS) := by omega
    simp only [isCacheValid, decide_eq_true_eq, if_neg hv]
    unfold fetchWebTRISFresh fetchSites
    cases sites₂ with
    | ok l =>
        cases l with
        | nil => simp [fetchReports]
        | cons a t =>
            simp only []
            split <;> simp_all [fetchReports]
    | err m => simp
  · intro k route rs now₁ now₂ iso₁ iso₂ origin destination road net₂ hk h
    have hkb : truthyStr (some k) = true := by simp [truthyStr, hk]
    have hc : (fetchGoogleMapsTraffic (some k) (.okRoutes (route :: rs)) now₁ iso₁ []
        origin destination road).cache =
        cacheSet [] (getCacheKeyGoogle origin destination)
          ⟨(fetchGoogleMapsTraffic (some k) (.okRoutes (route :: rs)) now₁ iso₁ []
            origin destination road).result.data, now₁⟩ := by
      unfold fetchGoogleMapsTraffic
      rw [hkb]
      rfl
    rw [show (fetchGoogleMapsTraffic (some k) net₂ now₂ iso₂
        (fetchGoogleMapsTraffic (some k) (.okRoutes (route :: rs)) now₁ iso₁ []
          origin destination road).cache origin destination road) =
        ⟨{ data := (fetchGoogleMapsTraffic (some k) (.okRoutes (route :: rs)) now₁ iso₁ []
            origin destination road).result.data,
           fromCache := some true },
         (fetchGoogleMapsTraffic (some k) (.okRoutes (route :: rs)) now₁ iso₁ []
           origin destination road).cache, 0⟩ from ?_]
    · exact ⟨rfl, rfl, rfl⟩
    · conv_lhs => rw [fetchGoogleMapsTraffic, hkb]
      rw [hc, cacheGet_cacheSet_self]
      simp [isCacheValid, h, hc]
  · intro k route rs now₁ now₂ iso₁ iso₂ origin destination road net₂ hk h
    have hkb : truthyStr (some k) = true := by simp [truthyStr, hk]
    have hc : (fetchGoogleMapsTraffic (some k) (.okRoutes (route :: rs)) now₁ iso₁ []
        origin destination road).cache =
        cacheSet [] (getCacheKeyGoogle origin destination)
          ⟨(fetchGoogleMapsTraffic (some k) (.okRoutes (route :: rs)) now₁ iso₁ []
            origin destination road).result.data, now₁⟩ := by
      unfold fetchGoogleMapsTraffic
      rw [hkb]
      rfl
    rw [fetchGoogleMapsTraffic, hkb, hc, cacheGet_cacheSet_self]
    have hv : ¬ (now₂ - now₁ < CACHE_TTL_MS) := by omega
    simp only [isCacheValid, decide_eq_true_eq, if_neg hv]
    cases net₂ with
    | transportErr m => rfl
    | badStatus s => rfl
    | okRoutes rts => cases rts <;> rfl

/-- Witness for the amended C8 at concrete inputs (a cached TII fetch
followed by a within-TTL refetch). -/
theorem c8_amended_cache_roundtrip_witness :
    (1000 : ℕ) - 0 < CACHE_TTL_MS ∧
    (fetchTIITraffic (.err "down") 1000 "t1"
        (fetchTIITraffic (.ok []) 0 "t0" [] "M1").cache "M1").result.data =
      (fetchTIITraffic (.ok []) 0 "t0" [] "M1").result.data ∧
    (fetchTIITraffic (.err "down") 1000 "t1"
        (fetchTIITraffic (.ok []) 0 "t0" [] "M1").cache "M1").result.fromCache = some true ∧
    (fetchTIITraffic (.err "down") 1000 "t1"
        (fetchTIITraffic (.ok []) 0 "t0" [] "M1").cache "M1").networkCalls = 0 :=
  ⟨by decide,
    (c8_amended_cache_roundtrip_and_expiry.1 [] 0 1000 "t0" "t1" "M1" (.err "down") (by decide)).1,
    (c8_amended_cache_roundtrip_and_expiry.1 [] 0 1000 "t0" "t1" "M1" (.err "down") (by decide)).2.1,
    (c8_amended_cache_roundtrip_and_expiry.1 [] 0 1000 "t0" "t1" "M1" (.err "down") (by decide)).2.2⟩

/-! ### C9 — enrichment fallback -/

/-- The cache-hit condition of `extractSegment`
(`useCache && cache.has(key) && fresh`). -/
def cacheFreshHit (useCache : Bool) (cached : Option (ExtractResult × ℕ)) (now : ℕ) :
    Bool :=
  match cached with
  | some (_, ts) => useCache && (now - ts < CACHE_TTL_MS)
  | none => false

lemma createFallbackResult_rawExtracted (input : EnrichInput) :
    (createFallbackResult input).rawExtracted = false := by
  cases input <;> rfl

lemma createFallbackResult_cached (input : EnrichInput) :
    (createFallbackResult input).cached = false := by
  cases input <;> rfl

/-- **C9**: whenever the LLM path fails for any reason and the `fallback`
option is on (and the cache does not short-circuit the call), `extractSegment`
resolves — never throws — with the structured fallback result, annotated
`fallback = true` and `rawExtracted = false` and carrying the failure message
in `extractionError`. -/
theorem c9_enrichment_fallback_never_throws (msg provider : String)
    (cached : Option (ExtractResult × ℕ)) (now : ℕ) (input : EnrichInput)
    (useCache : Bool) (hmiss : cacheFreshHit useCache cached now = false) :
    ∃ r : ExtractResult,
      extractSegment (.failed msg) provider cached now input useCache true = .ok r ∧
      r.fallback = true ∧ r.rawExtracted = false ∧ r.extractionError = some msg ∧
      r.cached = false := by
  refine ⟨{ createFallbackResult input with extractionError := some msg, fallback := true },
    ?_, rfl, createFallbackResult_rawExtracted input, rfl, createFallbackResult_cached input⟩
  unfold extractSegment
  cases cached with
  | none => rfl
  | some p =>
      obtain ⟨v, ts⟩ := p
      have hm2 : (useCache && decide (now - ts < CACHE_TTL_MS)) = false := hmiss
      simp only [hm2, Bool.false_eq_true, if_false]
      rfl

/-- Witness for C9 at a concrete raw-text input with the LLM unconfigured. -/
theorem c9_enrichment_fallback_witness :
    ∃ r : ExtractResult,
      extractSegment (.failed "LLM not configured: LLM_API_KEY not set") "gemini" none 0
          (.text "Site 19446, M1, lat: 52.198, lon: -0.915, speed: 48, moderate congestion")
          true true = .ok r ∧
      r.fallback = true ∧ r.rawExtracted = false ∧
      r.extractionError = some "LLM not configured: LLM_API_KEY not set" ∧
      r.cached = false :=
  c9_enrichment_fallback_never_throws "LLM not configured: LLM_API_KEY not set" "gemini"
    none 0 (.text "Site 19446, M1, lat: 52.198, lon: -0.915, speed: 48, moderate congestion")
    true (by decide)

/-! ### C10 — the `unknown` congestion level -/

lemma normalizeGoogleMapsData_congestionLevel (nowIso : String) (route : GRoute)
    (origin destination : String) (road : Option String) :
    (normalizeGoogleMapsData nowIso route origin destination road).congestionLevel =
      calculateCongestion
        (jsOrQ (route.legs.head?.getD {}).durationInTrafficValue
          (jsOrQ (route.legs.head?.getD {}).durationValue 0))
        (jsOrQ (route.legs.head?.getD {}).durationValue 0) :=
  rfl

/-- The records falling outside all four congestion buckets. -/
def outsideBuckets (data : List ApiRecordView) : List ApiRecordView :=
  data.filter (fun d =>
    !(d.congestionLevel == "heavy") && !(d.congestionLevel == "moderate") &&
    !(d.congestionLevel == "light") && !(d.congestionLevel == "none"))

lemma filter_partition (data : List ApiRecordView) :
    (data.filter (fun d => d.congestionLevel == "heavy")).length +
      (data.filter (fun d => d.congestionLevel == "moderate")).length +
      (data.filter (fun d => d.congestionLevel == "light")).length +
      (data.filter (fun d => d.congestionLevel == "none")).length +
      (outsideBuckets data).length = data.length := by
  unfold outsideBuckets
  induction data with
  | nil => rfl
  | cons d tail ih =>
      simp only [List.filter_cons, List.length_cons]
      by_cases h1 : d.congestionLevel = "heavy"
      · simp [h1]
        omega
      · by_cases h2 : d.congestionLevel = "moderate"
        · simp [h2]
          omega
        · by_cases h3 : d.congestionLevel = "light"
          · simp [h3]
            omega
          · by_cases h4 : d.congestionLevel = "none"
            · simp [h4]
              omega
            · simp [h1, h2, h3, h4]
              omega

lemma summary_partition (data : List ApiRecordView) :
    (summaryOf data).heavyCount + (summaryOf data).moderateCount +
      (summaryOf data).lightCount + (summaryOf data).noneCount +
      (outsideBuckets data).length = (summaryOf data).totalRecords := by
  simp only [summaryOf]
  exact filter_partition data

/-- **C10**: a commercial-adapter leg whose free-flow duration is missing or
zero yields `congestionLevel = "unknown"` — a fifth value outside the
documented enum — and such a record counts towards `totalRecords` but towards
none of the four `congestionBreakdown` buckets, so the bucket counts sum to
strictly less than `totalRecords` whenever one is present. -/
theorem c10_unknown_level_outside_buckets :
    (∀ (nowIso origin destination : String) (road : Option String) (route : GRoute),
      jsOrQ (route.legs.head?.getD {}).durationValue 0 = 0 →
      (normalizeGoogleMapsData nowIso route origin destination road).congestionLevel =
        "unknown") ∧
    ("unknown" ∉ (["none", "light", "moderate", "heavy"] : List String)) ∧
    (∀ data : List ApiRecordView,
      (summaryOf data).totalRecords = data.length ∧
      (summaryOf data).heavyCount + (summaryOf data).moderateCount +
        (summaryOf data).lightCount + (summaryOf data).noneCount ≤
        (summaryOf data).totalRecords) ∧
    (∀ (data : List ApiRecordView) (d : ApiRecordView), d ∈ data →
      d.congestionLevel = "unknown" →
      (summaryOf data).heavyCount + (summaryOf data).moderateCount +
        (summaryOf data).lightCount + (summaryOf data).noneCount <
        (summaryOf data).totalRecords) := by
  refine ⟨?_, by decide, ?_, ?_⟩
  · intro nowIso origin destination road route h
    rw [normalizeGoogleMapsData_congestionLevel, h]
    unfold calculateCongestion
    rw [if_pos rfl]
  · intro data
    have hp := summary_partition data
    exact ⟨rfl, by omega⟩
  · intro data d hmem hlvl
    have hp := summary_partition data
    have hd : d ∈ outsideBuckets data := by
      unfold outsideBuckets
      rw [List.mem_filter]
      exact ⟨hmem, by simp [hlvl]⟩
    have hpos : 0 < (outsideBuckets data).length := List.length_pos_of_mem hd
    omega

def c10Route : GRoute := { legs := [{ durationInTrafficValue := some 300 }] }

/-- Witness for C10: a concrete leg with no free-flow duration and a summary
over the record it produces. -/
theorem c10_unknown_level_witness :
    (normalizeGoogleMapsData "t" c10Route "o" "d" none).congestionLevel = "unknown" ∧
    (summaryOf [{ source := "GoogleMaps"
                  congestionLevel :=
                    (normalizeGoogleMapsData "t" c10Route "o" "d" none).congestionLevel }]).heavyCount +
      (summaryOf [{ source := "GoogleMaps"
                    congestionLevel :=
                      (normalizeGoogleMapsData "t" c10Route "o" "d" none).congestionLevel }]).moderateCount +
      (summaryOf [{ source := "GoogleMaps"
                    congestionLevel :=
                      (normalizeGoogleMapsData "t" c10Route "o" "d" none).congestionLevel }]).lightCount +
      (summaryOf [{ source := "GoogleMaps"
                    congestionLevel :=
                      (normalizeGoogleMapsData "t" c10Route "o" "d" none).congestionLevel }]).noneCount <
      (summaryOf [{ source := "GoogleMaps"
                    congestionLevel :=
                      (normalizeGoogleMapsData "t" c10Route "o" "d" none).congestionLevel }]).totalRecords := by
  have h1 := c10_unknown_level_outside_buckets.1 "t" "o" "d" none c10Route rfl
  refine ⟨h1, ?_⟩
  exact c10_unknown_level_outside_buckets.2.2.2 _ _ (List.mem_singleton_self _) h1

/-! ### C1 — commercial fallback trigger and retry -/

lemma shouldTryGoogle_eq {α : Type} (fp : Phase α) (road : String) (town : Option String)
    (country : String) :
    (shouldTryGoogle fp road town country = true) ↔
      (fp.data = [] ∨ isLocalStreet road town = true ∨
        isGoogleMapsPreferred road town country = true) := by
  unfold shouldTryGoogle
  simp [List.isEmpty_iff, or_assoc]

lemma fetchRoadTraffic_snd {α : Type} (gm : String → String → FetchOutcome α)
    (road : String) (town : Option String) (country : String) :
    (fetchRoadTraffic gm road town country).2 =
      if ((gm (googleOrigin road town country)
            (googleDestination road town country)).data.length == 0) && truthyStr town then
        [(googleOrigin road town country, googleDestination road town country),
         ("Near " ++ road ++ ", " ++ town.getD "", "End of " ++ road ++ ", " ++ town.getD "")]
      else [(googleOrigin road town country, googleDestination road town country)] := by
  simp only [fetchRoadTraffic]
  split <;> rfl

lemma fetchRoadTraffic_snd_ne_nil {α : Type} (gm : String → String → FetchOutcome α)
    (road : String) (town : Option String) (country : String) :
    (fetchRoadTraffic gm road town country).2 ≠ [] := by
  rw [fetchRoadTraffic_snd]
  split <;> simp

lemma fetchRoadTraffic_fst {α : Type} (gm : String → String → FetchOutcome α)
    (road : String) (town : Option String) (country : String) :
    ∃ o d, (fetchRoadTraffic gm road town country).1 = gm o d := by
  simp only [fetchRoadTraffic]
  split
  · exact ⟨_, _, rfl⟩
  · exact ⟨_, _, rfl⟩

lemma fetchTrafficWithFallback_googleCalls {α : Type}
    (tii web : String → FetchOutcome α) (gm : String → String → FetchOutcome α)
    (road country : String) (town : Option String) :
    (fetchTrafficWithFallback tii web gm road country town).googleCalls =
      if shouldTryGoogle (freePhase tii web road country) road town country then
        (fetchRoadTraffic gm road town (countryNameOf country)).2
      else [] := by
  by_cases h : shouldTryGoogle (freePhase tii web road country) road town country = true <;>
    simp [fetchTrafficWithFallback, h]

lemma fetchTrafficWithFallback_fallbackUsed {α : Type}
    (tii web : String → FetchOutcome α) (gm : String → String → FetchOutcome α)
    (road country : String) (town : Option String) :
    (fetchTrafficWithFallback tii web gm road country town).fallbackUsed =
      shouldTryGoogle (freePhase tii web road country) road town country := by
  by_cases h : shouldTryGoogle (freePhase tii web road country) road town country = true <;>
    simp [fetchTrafficWithFallback, h]

lemma fetchTrafficWithFallback_sourcesUsed {α : Type}
    (tii web : String → FetchOutcome α) (gm : String → String → FetchOutcome α)
    (road country : String) (town : Option String) :
    (fetchTrafficWithFallback tii web gm road country town).sourcesUsed =
      (freePhase tii web road country).sources ++
        (if shouldTryGoogle (freePhase tii web road country) road town country then
          ["GoogleMaps"] else []) := by
  by_cases h : shouldTryGoogle (freePhase tii web road country) road town country = true <;>
    simp [fetchTrafficWithFallback, h]

lemma freePhase_sources {α : Type} (tii web : String → FetchOutcome α)
    (road country : String) :
    (freePhase tii web road country).sources =
      (if tiiGuard road country then ["TII-Ireland"] else []) ++
      (if webGuard road country then ["WebTRIS-UK"] else []) := by
  unfold freePhase tiiPhase webPhase
  by_cases h1 : tiiGuard road country <;> by_cases h2 : webGuard road country <;>
    simp [h1, h2]

lemma googleMaps_not_mem_freePhase_sources {α : Type} (tii web : String → FetchOutcome α)
    (road country : String) :
    "GoogleMaps" ∉ (freePhase tii web road country).sources := by
  rw [freePhase_sources]
  by_cases h1 : tiiGuard road country <;> by_cases h2 : webGuard road country <;>
    simp [h1, h2]

/-- **C1**: the commercial (Google Maps) adapter is invoked exactly when no
data came from the free adapters, or the query is a local street, or the
prefer-commercial heuristic fires; `fallbackUsed` and the `"GoogleMaps"`
entry in `sourcesUsed` track the same condition; and when it is invoked with
a town present and the first call returns empty, it is retried exactly once
with the alternative `Near X` / `End of X` phrasing. -/
theorem c1_commercial_fallback_iff_and_retry {α : Type}
    (tii web : String → FetchOutcome α) (gm : String → String → FetchOutcome α)
    (road country : String) (town : Option String) :
    ((fetchTrafficWithFallback tii web gm road country town).googleCalls ≠ [] ↔
      ((freePhase tii web road country).data = [] ∨ isLocalStreet road town = true ∨
        isGoogleMapsPreferred road town country = true)) ∧
    ((fetchTrafficWithFallback tii web gm road country town).fallbackUsed = true ↔
      ((freePhase tii web road country).data = [] ∨ isLocalStreet road town = true ∨
        isGoogleMapsPreferred road town country = true)) ∧
    (("GoogleMaps" ∈ (fetchTrafficWithFallback tii web gm road country town).sourcesUsed) ↔
      ((freePhase tii web road country).data = [] ∨ isLocalStreet road town = true ∨
        isGoogleMapsPreferred road town country = true)) ∧
    (((freePhase tii web road country).data = [] ∨ isLocalStreet road town = true ∨
        isGoogleMapsPreferred road town country = true) →
      truthyStr town = true →
      (gm (googleOrigin road town (countryNameOf country))
        (googleDestination road town (countryNameOf country))).data = [] →
      (fetchTrafficWithFallback tii web gm road country town).googleCalls =
        [(googleOrigin road town (countryNameOf country),
          googleDestination road town (countryNameOf country)),
         ("Near " ++ road ++ ", " ++ town.getD "",
          "End of " ++ road ++ ", " ++ town.getD "")]) := by
  have hst := shouldTryGoogle_eq (freePhase tii web road country) road town country
  by_cases h : shouldTryGoogle (freePhase tii web road country) road town country = true
  · have hd := hst.mp h
    refine ⟨iff_of_true ?_ hd, iff_of_true ?_ hd, iff_of_true ?_ hd, ?_⟩
    · rw [fetchTrafficWithFallback_googleCalls, if_pos h]
      exact fetchRoadTraffic_snd_ne_nil gm road town (countryNameOf country)
    · rw [fetchTrafficWithFallback_fallbackUsed]
      exact h
    · rw [fetchTrafficWithFallback_sourcesUsed, if_pos h]
      simp
    · intro _ htown hempty
      rw [fetchTrafficWithFallback_googleCalls, if_pos h, fetchRoadTraffic_snd,
        if_pos (by simp [hempty, htown])]
  · have hd : ¬ ((freePhase tii web road country).data = [] ∨
        isLocalStreet road town = true ∨ isGoogleMapsPreferred road town country = true) :=
      fun hx => h (hst.mpr hx)
    refine ⟨iff_of_false ?_ hd, iff_of_false ?_ hd, iff_of_false ?_ hd,
      fun hx _ _ => absurd hx hd⟩
    · rw [fetchTrafficWithFallback_googleCalls, if_neg h]
      simp
    · rw [fetchTrafficWithFallback_fallbackUsed]
      exact h
    · rw [fetchTrafficWithFallback_sourcesUsed, if_neg h]
      simpa using googleMaps_not_mem_freePhase_sources tii web road country

/-- Witness for C1: a local street with a town whose first commercial call
returns empty data — two calls with the `Near`/`End of` phrasing. -/
theorem c1_commercial_fallback_witness :
    (fetchTrafficWithFallback (fun _ => ({} : FetchOutcome ℕ)) (fun _ => {}) (fun _ _ => {})
        "George Street" "IE" (some "Drogheda")).googleCalls =
      [(googleOrigin "George Street" (some "Drogheda") (countryNameOf "IE"),
        googleDestination "George Street" (some "Drogheda") (countryNameOf "IE")),
       ("Near " ++ "George Street" ++ ", " ++ (some "Drogheda" : Option String).getD "",
        "End of " ++ "George Street" ++ ", " ++ (some "Drogheda" : Option String).getD "")] :=
  (c1_commercial_fallback_iff_and_retry (fun _ => ({} : FetchOutcome ℕ)) (fun _ => {})
      (fun _ _ => {}) "George Street" "IE" (some "Drogheda")).2.2.2
    (Or.inr (Or.inl (by decide))) (by decide) rfl

/-! ### C3 — orchestrator error recording -/

/-- **C3 counterexample**: a TII timeout (an adapter failure) with the
commercial fallback returning data leaves `errors = []` — the failure is
recorded only as a trace (`details`) entry, so not every adapter failure
becomes an `errors[]` entry. -/
theorem c3_counterexample_free_failure_not_in_errors :
    (fetchTrafficWithFallback
        (fun _ => (⟨[], some "timeout of 10000ms exceeded", none⟩ : FetchOutcome ℕ))
        (fun _ => {}) (fun _ _ => ⟨[7], none, none⟩) "M1" "IE" none).errors = [] ∧
    (⟨"TII returned no data", some "timeout of 10000ms exceeded", none⟩ : Detail) ∈
      (fetchTrafficWithFallback
        (fun _ => (⟨[], some "timeout of 10000ms exceeded", none⟩ : FetchOutcome ℕ))
        (fun _ => {}) (fun _ _ => ⟨[7], none, none⟩) "M1" "IE" none).details ∧
    (fetchTrafficWithFallback
        (fun _ => (⟨[], some "timeout of 10000ms exceeded", none⟩ : FetchOutcome ℕ))
        (fun _ => {}) (fun _ _ => ⟨[7], none, none⟩) "M1" "IE" none).data = [7] := by
  refine ⟨by decide, by decide, by decide⟩

lemma tiiPhase_no_data_detail {α : Type} (tii : String → FetchOutcome α)
    (road country : String) (hg : tiiGuard road country = true)
    (hd : (tii road).data = []) :
    (⟨"TII returned no data", (tii road).error, none⟩ : Detail) ∈
      (tiiPhase tii road country).details := by
  unfold tiiPhase
  rw [if_pos hg]
  simp [hd]

lemma webPhase_no_data_detail {α : Type} (web : String → FetchOutcome α)
    (road country : String) (hg : webGuard road country = true)
    (hd : (web road).data = []) :
    (⟨"WebTRIS returned no data", (web road).error, none⟩ : Detail) ∈
      (webPhase web road country).details := by
  unfold webPhase
  rw [if_pos hg]
  simp [hd]

lemma mem_details_of_mem_freePhase {α : Type} (tii web : String → FetchOutcome α)
    (gm : String → String → FetchOutcome α) (road country : String)
    (town : Option String) (d : Detail)
    (hd : d ∈ (freePhase tii web road country).details) :
    d ∈ (fetchTrafficWithFallback tii web gm road country town).details := by
  by_cases h : shouldTryGoogle (freePhase tii web road country) road town country = true
  · simp only [fetchTrafficWithFallback, h, if_true, List.mem_append]
    exact Or.inl hd
  · simp only [fetchTrafficWithFallback, h, if_false]
    exact hd

lemma fetchTrafficWithFallback_errors {α : Type}
    (tii web : String → FetchOutcome α) (gm : String → String → FetchOutcome α)
    (road country : String) (town : Option String) :
    (fetchTrafficWithFallback tii web gm road country town).errors =
      if shouldTryGoogle (freePhase tii web road country) road town country then
        (if (fetchRoadTraffic gm road town (countryNameOf country)).1.data.length > 0 then []
         else
           match (fetchRoadTraffic gm road town (countryNameOf country)).1.error with
           | some e => [e]
           | none => [])
      else [] := by
  by_cases h : shouldTryGoogle (freePhase tii web road country) road town country = true <;>
    simp [fetchTrafficWithFallback, h]

/-- **C3 (amended)**: the orchestrator is a total function returning a result
with `data`/`sourcesUsed`/`fallbackUsed`/`errors`/`details`; a free-adapter
(TII or WebTRIS) failure is recorded as a trace (`details`) entry carrying the
adapter's error, while the `errors[]` array only ever receives the commercial
adapter's error (when its final call returned empty data). -/
theorem c3_amended_error_recording {α : Type}
    (tii web : String → FetchOutcome α) (gm : String → String → FetchOutcome α)
    (road country : String) (town : Option String) :
    (∀ e ∈ (fetchTrafficWithFallback tii web gm road country town).errors,
      ∃ o d, (gm o d).error = some e ∧ (gm o d).data = []) ∧
    (tiiGuard road country = true → (tii road).data = [] →
      (⟨"TII returned no data", (tii road).error, none⟩ : Detail) ∈
        (fetchTrafficWithFallback tii web gm road country town).details) ∧
    (webGuard road country = true → (web road).data = [] →
      (⟨"WebTRIS returned no data", (web road).error, none⟩ : Detail) ∈
        (fetchTrafficWithFallback tii web gm road country town).details) := by
  refine ⟨?_, ?_, ?_⟩
  · intro e he
    rw [fetchTrafficWithFallback_errors] at he
    by_cases h : shouldTryGoogle (freePhase tii web road country) road town country = true
    · rw [if_pos h] at he
      obtain ⟨o, d, ho⟩ := fetchRoadTraffic_fst gm road town (countryNameOf country)
      by_cases hlen : (fetchRoadTraffic gm road town (countryNameOf country)).1.data.length > 0
      · rw [if_pos hlen] at he
        exact absurd he (List.not_mem_nil e)
      · rw [if_neg hlen] at he
        have hdata : (fetchRoadTraffic gm road town (countryNameOf country)).1.data = [] :=
          List.length_eq_zero.mp (by omega)
        cases herr : (fetchRoadTraffic gm road town (countryNameOf country)).1.error with
        | none =>
            rw [herr] at he
            exact absurd he (List.not_mem_nil e)
        | some e' =>
            rw [herr] at he
            simp only [List.mem_singleton] at he
            subst he
            exact ⟨o, d, by rw [← ho]; exact herr, by rw [← ho]; exact hdata⟩
    · rw [if_neg h] at he
      exact absurd he (List.not_mem_nil e)
  · intro hg hd
    refine mem_details_of_mem_freePhase tii web gm road country town _ ?_
    have hm := tiiPhase_no_data_detail tii road country hg hd
    show _ ∈ (tiiPhase tii road country).details ++ (webPhase web road country).details
    exact List.mem_append_left _ hm
  · intro hg hd
    refine mem_details_of_mem_freePhase tii web gm road country town _ ?_
    have hm := webPhase_no_data_detail web road country hg hd
    show _ ∈ (tiiPhase tii road country).details ++ (webPhase web road country).details
    exact List.mem_append_right _ hm

/-- Witness for the amended C3: the concrete TII-timeout scenario. -/
theorem c3_amended_error_recording_witness :
    (⟨"TII returned no data", some "timeout of 10000ms exceeded", none⟩ : Detail) ∈
      (fetchTrafficWithFallback
        (fun _ => (⟨[], some "timeout of 10000ms exceeded", none⟩ : FetchOutcome ℕ))
        (fun _ => {}) (fun _ _ => ⟨[7], none, none⟩) "M1" "IE" none).details :=
  (c3_amended_error_recording
      (fun _ => (⟨[], some "timeout of 10000ms exceeded", none⟩ : FetchOutcome ℕ))
      (fun _ => {}) (fun _ _ => ⟨[7], none, none⟩) "M1" "IE" none).2.1
    (by decide) rfl

end TrafficApi
